import Mathlib

/-!
# HDMI mirroring: geometry transform, change detector and cable state machine

A shallow embedding of `drivers/video/msm/hdmi/mirroring.c` (with the
enumerations of `include/linux/htc_hdmi.h`).

* `unsigned int` / `uint32_t` / `__u32` values are natural numbers; every
  operation that can wrap reduces modulo 2^32 (`toU32`).
* `int` values are integers; `toI32` is the conversion from `unsigned int`.
* Enumeration-typed fields hold integers, so that values outside the
  enumerators can be stored, as in C.
* A division whose divisor is zero has no defined result: the functions that
  divide return an `Option`, and `none` stands for that outcome.
* The global `settings`, the function-static `lastSrc` and the calls made to
  the collaborators (blit submission, frame-buffer fill, mode setting, start
  and stop of the mirror loop) are carried in an explicit `World`.
-/

namespace Mirroring

/-! ## Machine integers -/

/-- Conversion of an integer value to `unsigned int`: reduction modulo 2^32. -/
def toU32 (i : Int) : Nat := (i % 4294967296).toNat

/-- Conversion of an `unsigned int` value to `int` (two's complement). -/
def toI32 (n : Nat) : Int :=
  if n % 4294967296 < 2147483648 then ((n % 4294967296 : Nat) : Int)
  else ((n % 4294967296 : Nat) : Int) - 4294967296

/-- Unsigned subtraction `a - b` of two `unsigned int` values. -/
def usub (a b : Nat) : Nat := toU32 ((a : Int) - (b : Int))

/-- Subtraction `a - i` of an `int` from an `unsigned int`: the `int` is converted
to `unsigned int` and the result wraps. -/
def usubI (a : Nat) (i : Int) : Nat := toU32 ((a : Int) - i)

/-- Addition `a += i` of an `int` to an `unsigned int`. -/
def uaddI (a : Nat) (i : Int) : Nat := toU32 ((a : Int) + i)

/-- Unsigned multiplication, wrapping modulo 2^32. -/
def umul (a b : Nat) : Nat := (a * b) % 4294967296

/-- Right shift `i >> n` of an `int` (arithmetic: the sign is kept). -/
def sar (i : Int) (n : Nat) : Int := Int.shiftRight i n

/-- Unsigned division; with a zero divisor there is no defined result. -/
def udiv (a b : Nat) : Option Nat := if b = 0 then none else some (a / b)

/-! ## Enumerations of `htc_hdmi.h` -/

def ROTATE_AUTO : Int := 0
def ROTATE_0 : Int := 1
def ROTATE_90 : Int := 2
def ROTATE_180 : Int := 3
def ROTATE_270 : Int := 4

def SCALING_FIT_TO_SCREEN : Int := 0
def SCALING_CENTER : Int := 1
def SCALING_STRETCH : Int := 2

/-! ## Data model -/

/-- The `struct mirror_settings` of `htc_hdmi.h`. -/
structure mirror_settings where
  rotation : Int
  scaling : Int
  overscanX : Int
  overscanY : Int
  audioOverHdmi : Int
deriving DecidableEq, Repr

/-- The `struct internal_mirror_settings` of `mirroring.c`. -/
structure internal_mirror_settings where
  rotation : Int
  currentRotation : Int
  scaling : Int
  overscanX : Int
  overscanY : Int
  currentOverscanX : Int
  currentOverscanY : Int
  audioOverHdmi : Int
  mirroringState : Int
deriving DecidableEq, Repr

/-- The initial value of the global `settings`: the positional initialiser
`{ ROTATE_AUTO, ROTATE_0, SCALING_FIT_TO_SCREEN, 60, 60, 1, false }` fills the
fields in declaration order and the remaining ones are zero. -/
def settings_init : internal_mirror_settings :=
  { rotation := ROTATE_AUTO, currentRotation := ROTATE_0, scaling := SCALING_FIT_TO_SCREEN,
    overscanX := 60, overscanY := 60, currentOverscanX := 1, currentOverscanY := 0,
    audioOverHdmi := 0, mirroringState := 0 }

/-- The `struct fb_var_screeninfo` of a frame buffer. The fields read by the
mirroring code are named; `other` holds the remaining words of the structure,
which only take part in the whole-structure comparison and copy. -/
structure fb_var_screeninfo where
  xres : Nat
  yres : Nat
  xres_virtual : Nat
  yoffset : Nat
  bits_per_pixel : Nat
  height : Nat
  width : Nat
  other : List Nat
deriving DecidableEq, Repr

/-- The `struct mdp_rect` of the blitter interface. -/
structure mdp_rect where
  x : Nat
  y : Nat
  w : Nat
  h : Nat
deriving DecidableEq, Repr

/-- The `struct mdp_img` of the blitter interface. -/
structure mdp_img where
  width : Nat
  height : Nat
  format : Nat
  offset : Nat
  memory_id : Nat
  priv : Nat
deriving DecidableEq, Repr

/-- The `struct mdp_blit_req` of the blitter interface. -/
structure mdp_blit_req where
  src : mdp_img
  dst : mdp_img
  src_rect : mdp_rect
  dst_rect : mdp_rect
  alpha : Nat
  transp_mask : Nat
  flags : Nat
  sharpening_strength : Nat
deriving DecidableEq, Repr

/-- The named constants of the blitter header `linux/msm_mdp.h`, which is not
among the sources: they are a parameter of the development. -/
structure mdp_consts where
  MDP_RGBX_8888 : Nat
  MDP_RGB_565 : Nat
  MDP_ALPHA_NOP : Nat
  MDP_TRANSP_NOP : Nat
  MDP_ROT_NOP : Nat
  MDP_ROT_90 : Nat
  MDP_ROT_180 : Nat
  MDP_ROT_270 : Nat
deriving DecidableEq, Repr

/-- One instance of the blitter constants, used where a concrete value is needed. -/
def mdp_consts_sample : mdp_consts :=
  { MDP_RGBX_8888 := 11, MDP_RGB_565 := 0, MDP_ALPHA_NOP := 255, MDP_TRANSP_NOP := 4294967295,
    MDP_ROT_NOP := 0, MDP_ROT_90 := 4, MDP_ROT_180 := 3, MDP_ROT_270 := 7 }

/-- What one call of `read_surfaceflinger_file` delivers: the returned length and
the `orientation` byte of `displays[0]` in the buffer it filled. -/
structure sf_read where
  ret : Int
  orientation : Nat
deriving DecidableEq, Repr

/-- The value of `sizeof(struct surface_flinger_cblk_t)`: 32 bytes of header and
four `display_cblk_t` of 32 bytes each. -/
def SIZEOF_surface_flinger_cblk_t : Int := 160

/-- A call made to a collaborator outside `mirroring.c`. -/
inductive Event where
  | hdmi_blit_on_vsync (req : mdp_blit_req)
  | cfb_fillrect (dx dy width height color rop : Nat)
  | edid_get_best_resolution
  | fb_set_var (xres yres xres_virtual yres_virtual bits_per_pixel : Nat)
  | hdmi_startMirroring (reason : Int)
  | hdmi_stopMirroring (reason : Int)
  | hdmi_isCableConnected
deriving DecidableEq, Repr

/-- The mutable state of `mirroring.c` and the calls issued so far (oldest first). -/
structure World where
  settings : internal_mirror_settings
  lastSrc : fb_var_screeninfo
  log : List Event
deriving DecidableEq, Repr

/-- The all-zero rectangle. -/
def mdp_rect_zero : mdp_rect := ⟨0, 0, 0, 0⟩

/-- The all-zero image description. -/
def mdp_img_zero : mdp_img := ⟨0, 0, 0, 0, 0, 0⟩

/-- The request block after `memset(req, 0, sizeof(struct mdp_blit_req))`. -/
def mdp_blit_req_zero : mdp_blit_req :=
  ⟨mdp_img_zero, mdp_img_zero, mdp_rect_zero, mdp_rect_zero, 0, 0, 0, 0⟩

/-- The initial value `{ 0 }` of the static `lastSrc`. -/
def lastSrc_init : fb_var_screeninfo := ⟨0, 0, 0, 0, 0, 0, 0, []⟩

/-! ## `getOrientation` -/

/-- The function `getOrientation` (lines 361-382). -/
def getOrientation (sf : sf_read) : Int :=
  if sf.ret ≠ SIZEOF_surface_flinger_cblk_t then 1
  else
    let orient : Int := (sf.orientation : Int) + 1
    if orient < 1 ∨ orient > 4 then 1 else orient

/-! ## `calculateBlitDetails`, block by block -/

/-- Lines 99-117: the request block is zeroed and the two image descriptions and
the extra fields are filled in. -/
def req_preinit (K : mdp_consts) (src dst : fb_var_screeninfo) : mdp_blit_req :=
  { mdp_blit_req_zero with
    src := { mdp_img_zero with
      width := src.xres, height := src.yres, format := K.MDP_RGBX_8888, memory_id := 0x20000000 }
    alpha := K.MDP_ALPHA_NOP
    transp_mask := K.MDP_TRANSP_NOP
    sharpening_strength := 64
    dst := { mdp_img_zero with
      width := dst.xres, height := dst.yres, format := K.MDP_RGB_565, memory_id := 0x20000001 } }

/-- The physical sizes used by the aspect-ratio computation. -/
structure PhysSize where
  srcSizeX : Nat
  srcSizeY : Nat
  dstSizeX : Nat
  dstSizeY : Nat
deriving DecidableEq, Repr

/-- Lines 119-138: the physical sizes in millimetres, with the fall-back to the
pixel resolution when a dimension is zero. `edidX`, `edidY` are the centimetres
delivered by `edid_get_screen_size`. -/
def physSize (edidX edidY : Nat) (src dst : fb_var_screeninfo) : PhysSize :=
  let srcSizeX := src.width
  let srcSizeY := src.height
  let dstSizeX := umul edidX 10
  let dstSizeY := umul edidY 10
  let srcZero : Bool := srcSizeX = 0 ∨ srcSizeY = 0
  let dstZero : Bool := dstSizeX = 0 ∨ dstSizeY = 0
  { srcSizeX := if srcZero then src.xres else srcSizeX
    srcSizeY := if srcZero then src.yres else srcSizeY
    dstSizeX := if dstZero then dst.xres else dstSizeX
    dstSizeY := if dstZero then dst.yres else dstSizeY }

/-- Lines 140-157: the rotation and the overscan in effect are stored in the
settings. -/
def resolveCurrent (sf : sf_read) (s : internal_mirror_settings) : internal_mirror_settings :=
  { s with
    currentRotation := if s.rotation = ROTATE_AUTO then getOrientation sf else s.rotation
    currentOverscanX := if s.scaling = SCALING_CENTER then 0 else s.overscanX
    currentOverscanY := if s.scaling = SCALING_CENTER then 0 else s.overscanY }

/-- The outcome of the rotation switch. -/
structure RotOut where
  flags : Nat
  dstWidth : Nat
  dstHeight : Nat
  flipDst : Bool
deriving DecidableEq, Repr

/-- Lines 159-187: the switch on `settings.currentRotation`. -/
def rotationSwitch (K : mdp_consts) (s : internal_mirror_settings) (dst : fb_var_screeninfo) :
    RotOut :=
  if s.currentRotation = ROTATE_90 then
    { dstHeight := usubI dst.xres s.currentOverscanX
      dstWidth := usubI dst.yres s.currentOverscanY
      flipDst := true
      flags := K.MDP_ROT_270 }
  else if s.currentRotation = ROTATE_180 then
    { flags := K.MDP_ROT_180
      dstWidth := usubI dst.xres s.currentOverscanX
      dstHeight := usubI dst.yres s.currentOverscanY
      flipDst := false }
  else if s.currentRotation = ROTATE_270 then
    { flags := K.MDP_ROT_90
      dstHeight := usubI dst.xres s.currentOverscanX
      dstWidth := usubI dst.yres s.currentOverscanY
      flipDst := true }
  else
    { flags := K.MDP_ROT_NOP
      dstWidth := usubI dst.xres s.currentOverscanX
      dstHeight := usubI dst.yres s.currentOverscanY
      flipDst := false }

/-- Lines 189-195: with a 90 or 270 degree rotation the destination physical
size is swapped, through an `int` temporary. -/
def flipPhys (flipDst : Bool) (p : PhysSize) : PhysSize :=
  if flipDst then
    let tmp : Int := toI32 p.dstSizeX
    { p with dstSizeX := p.dstSizeY, dstSizeY := toU32 tmp }
  else p

/-- Lines 197-201: the source rectangle is the whole display. -/
def whole_src_rect (src : fb_var_screeninfo) : mdp_rect := ⟨0, 0, src.xres, src.yres⟩

/-- Lines 206-217: the `SCALING_STRETCH` case, the unrotated destination rectangle. -/
def stretch_rect (req : mdp_blit_req) (s : internal_mirror_settings) : mdp_rect :=
  { x := 0
    y := 0
    w := usubI req.dst.width s.currentOverscanX
    h := usubI req.dst.height s.currentOverscanY }

/-- Lines 219-247: the `SCALING_CENTER` case, the unrotated destination rectangle. -/
def center_dst_rect (src : fb_var_screeninfo) (dstWidth dstHeight : Nat) : mdp_rect :=
  { x := if src.xres ≤ dstWidth then usub dstWidth src.xres >>> 1 else 0
    w := if src.xres ≤ dstWidth then src.xres else dstWidth
    y := if src.yres ≤ dstHeight then usub dstHeight src.yres >>> 1 else 0
    h := if src.yres ≤ dstHeight then src.yres else dstHeight }

/-- Lines 219-247: the `SCALING_CENTER` case, the source rectangle (given the
rectangle set before the switch). -/
def center_src_rect (src : fb_var_screeninfo) (dstWidth dstHeight : Nat) (r : mdp_rect) :
    mdp_rect :=
  { x := if src.xres ≤ dstWidth then r.x else usub src.xres dstWidth >>> 1
    w := if src.xres ≤ dstWidth then r.w else dstWidth
    y := if src.yres ≤ dstHeight then r.y else usub src.yres dstHeight >>> 1
    h := if src.yres ≤ dstHeight then r.h else dstHeight }

/-- Lines 249-276: the `SCALING_FIT_TO_SCREEN` case, the unrotated destination
rectangle. `scaleToX` and `scaleToY` are `int` variables that take part in
unsigned comparisons and products. -/
def fit_rect (p : PhysSize) (dstWidth dstHeight : Nat) : Option mdp_rect := do
  let qx ← udiv (umul p.srcSizeX p.dstSizeY) p.srcSizeY
  let qy ← udiv (umul p.srcSizeY p.dstSizeX) p.srcSizeX
  let scaleToX : Int := toI32 qx
  let scaleToY : Int := toI32 qy
  if toU32 scaleToX ≤ p.dstSizeX then
    let w ← udiv (umul (toU32 scaleToX) dstWidth) p.dstSizeX
    pure { w := w, h := dstHeight, x := usub dstWidth w >>> 1, y := 0 }
  else
    let h ← udiv (umul (toU32 scaleToY) dstHeight) p.dstSizeY
    pure { w := dstWidth, h := h, x := 0, y := usub dstHeight h >>> 1 }

/-- Lines 283-299: the rectangle is transferred to the request, transposed when
`flipDst` is set, and shifted by half the overscan in effect. -/
def transferBack (flipDst : Bool) (dst_rect : mdp_rect) (s : internal_mirror_settings) :
    mdp_rect :=
  let r : mdp_rect :=
    if flipDst then { x := dst_rect.y, y := dst_rect.x, w := dst_rect.h, h := dst_rect.w }
    else { x := dst_rect.x, y := dst_rect.y, w := dst_rect.w, h := dst_rect.h }
  { r with
    x := uaddI r.x (sar s.currentOverscanX 1)
    y := uaddI r.y (sar s.currentOverscanY 1) }

/-- The function `calculateBlitDetails` (lines 80-302). The result is `none` when a
division by zero is reached; otherwise it is the returned flag together with the
settings and the request block as the function leaves them. -/
def calculateBlitDetails (K : mdp_consts) (edidX edidY : Nat) (sf : sf_read)
    (settings : internal_mirror_settings) (src dst : fb_var_screeninfo) :
    Option (Bool × internal_mirror_settings × mdp_blit_req) :=
  let req0 := req_preinit K src dst
  let p0 := physSize edidX edidY src dst
  let s := resolveCurrent sf settings
  let rot := rotationSwitch K s dst
  let p := flipPhys rot.flipDst p0
  let req1 : mdp_blit_req := { req0 with flags := rot.flags, src_rect := whole_src_rect src }
  if s.scaling = SCALING_STRETCH then
    some (true, s, { req1 with dst_rect := transferBack false (stretch_rect req1 s) s })
  else if s.scaling = SCALING_CENTER then
    some (true, s,
      { req1 with
        src_rect := center_src_rect src rot.dstWidth rot.dstHeight req1.src_rect
        dst_rect := transferBack rot.flipDst (center_dst_rect src rot.dstWidth rot.dstHeight) s })
  else if s.scaling = SCALING_FIT_TO_SCREEN then
    (fit_rect p rot.dstWidth rot.dstHeight).map fun dst_rect =>
      (true, s, { req1 with dst_rect := transferBack rot.flipDst dst_rect s })
  else
    some (false, s, req1)

/-! ## Change detector and frame entry point -/

/-- The function `mirroring_needReqUpdate` (lines 384-409): the returned flag and
the new value of the static `lastSrc`. -/
def mirroring_needReqUpdate (sf : sf_read) (settings : internal_mirror_settings)
    (lastSrc : fb_var_screeninfo) (src : fb_var_screeninfo) (req : mdp_blit_req) :
    Bool × fb_var_screeninfo :=
  let lastSrc1 := { lastSrc with yoffset := src.yoffset }
  if lastSrc1 ≠ src then (true, src)
  else if req.src.width ≠ src.xres ∨ req.src.height ≠ src.yres then (true, lastSrc1)
  else if settings.rotation = ROTATE_AUTO ∧ settings.currentRotation ≠ getOrientation sf then
    (true, lastSrc1)
  else (false, lastSrc1)

/-- The function `eraseFrameBuffer` (lines 411-424): one fill of the whole
destination with colour 0. -/
def eraseFrameBuffer (dst : fb_var_screeninfo) : Event :=
  Event.cfb_fillrect 0 0 dst.xres dst.yres 0 0

/-- Line 441: the byte offset of the visible part of the source. -/
def scanOffset (src : fb_var_screeninfo) : Nat :=
  umul (umul src.yoffset src.xres_virtual) (src.bits_per_pixel >>> 3)

/-- The function `mirroring_reportBlit` (lines 426-445). `sfDetect` is what the
orientation read delivers inside the change detector and `sfCalc` what it
delivers inside `calculateBlitDetails`. The result is `none` when a division by
zero is reached. -/
def mirroring_reportBlit (K : mdp_consts) (edidX edidY : Nat) (sfDetect sfCalc : sf_read)
    (w : World) (src dst : fb_var_screeninfo) (req : mdp_blit_req) :
    Option (Bool × World × mdp_blit_req) :=
  let need := mirroring_needReqUpdate sfDetect w.settings w.lastSrc src req
  if need.1 then
    match calculateBlitDetails K edidX edidY sfCalc w.settings src dst with
    | none => none
    | some (false, s, req1) => some (false, { w with settings := s, lastSrc := need.2 }, req1)
    | some (true, s, req1) =>
      let req2 : mdp_blit_req := { req1 with src := { req1.src with offset := scanOffset src } }
      some (true,
        { settings := s, lastSrc := need.2,
          log := w.log ++ [eraseFrameBuffer dst, Event.hdmi_blit_on_vsync req2] },
        req2)
  else
    let req2 : mdp_blit_req := { req with src := { req.src with offset := scanOffset src } }
    some (true,
      { w with lastSrc := need.2, log := w.log ++ [Event.hdmi_blit_on_vsync req2] },
      req2)

/-! ## Cable state machine and settings accessors -/

/-- The function `mirroring_setResolution` (lines 447-487): the returned flag and
the calls it makes. `best` is what `edid_get_best_resolution` delivers. -/
def mirroring_setResolution (best : Option (Int × Int)) : Bool × List Event :=
  match best with
  | none => (false, [Event.edid_get_best_resolution])
  | some (xres, yres) =>
    (true,
      [Event.edid_get_best_resolution,
       Event.fb_set_var (toU32 xres) (toU32 yres) (toU32 xres)
         (if yres > 720 then toU32 yres else toU32 (yres * 2)) 16])

/-- The function `mirroring_cable_conn` (lines 489-497). -/
def mirroring_cable_conn (best : Option (Int × Int)) (w : World) : World :=
  let w1 : World := { w with settings := { w.settings with mirroringState := 1 } }
  let w2 : World := { w1 with log := w1.log ++ (mirroring_setResolution best).2 }
  { w2 with log := w2.log ++ [Event.hdmi_startMirroring 0] }

/-- The function `mirroring_cable_disconn` (lines 499-505). -/
def mirroring_cable_disconn (w : World) : World :=
  let w1 : World := { w with log := w.log ++ [Event.hdmi_stopMirroring 0] }
  { w1 with settings := { w1.settings with mirroringState := 0 } }

/-- The function `mirroring_hdmi_enable_requested` (lines 507-511). -/
def mirroring_hdmi_enable_requested (w : World) : Bool × World :=
  (true, { w with log := w.log ++ [Event.hdmi_stopMirroring 1] })

/-- The function `mirroring_hdmi_disable_requested` (lines 513-527). `connected`
is what `hdmi_isCableConnected` delivers; `best1` and `best2` are what the two
resolution queries deliver. -/
def mirroring_hdmi_disable_requested (connected : Bool) (best1 best2 : Option (Int × Int))
    (w : World) : Bool × World :=
  if w.settings.mirroringState = 0 then (true, w)
  else
    let w1 : World := { w with log := w.log ++ [Event.hdmi_isCableConnected] }
    if !connected then (true, w1)
    else
      let w2 : World := { w1 with log := w1.log ++ (mirroring_setResolution best1).2 }
      let w3 : World := { w2 with log := w2.log ++ [Event.hdmi_startMirroring 1] }
      (true, { w3 with log := w3.log ++ (mirroring_setResolution best2).2 })

/-- The function `mirroring_getSettings` (lines 529-537). -/
def mirroring_getSettings (w : World) : mirror_settings :=
  { rotation := w.settings.rotation
    scaling := w.settings.scaling
    overscanX := w.settings.overscanX
    overscanY := w.settings.overscanY
    audioOverHdmi := w.settings.audioOverHdmi }

/-- The function `mirroring_setSettings` (lines 539-547). -/
def mirroring_setSettings (p : mirror_settings) (w : World) : World :=
  { w with settings :=
    { w.settings with
      rotation := p.rotation
      scaling := p.scaling
      overscanX := p.overscanX
      overscanY := p.overscanY
      audioOverHdmi := p.audioOverHdmi } }

/-! ## Quantities derived from the code, and the specification's formula -/

/-- The request block as it stands when the scaling switch is entered. -/
def req_entry (K : mdp_consts) (sf : sf_read) (s : internal_mirror_settings)
    (src dst : fb_var_screeninfo) : mdp_blit_req :=
  { req_preinit K src dst with
    flags := (rotationSwitch K (resolveCurrent sf s) dst).flags
    src_rect := whole_src_rect src }

/-- The values of `flags`, `dstWidth`, `dstHeight` and `flipDst` when the scaling
switch of `calculateBlitDetails` is entered. -/
def rot_at_switch (K : mdp_consts) (sf : sf_read) (s : internal_mirror_settings)
    (dst : fb_var_screeninfo) : RotOut :=
  rotationSwitch K (resolveCurrent sf s) dst

/-- The values of `srcSizeX`, `srcSizeY`, `dstSizeX` and `dstSizeY` when the
scaling switch of `calculateBlitDetails` is entered: after the zero guard and
after the swap made for 90 and 270 degrees. -/
def phys_at_switch (K : mdp_consts) (edidX edidY : Nat) (sf : sf_read)
    (s : internal_mirror_settings) (src dst : fb_var_screeninfo) : PhysSize :=
  flipPhys (rot_at_switch K sf s dst).flipDst (physSize edidX edidY src dst)

/-- The pixel resolution of a frame buffer is a pair of 32-bit values. -/
def res32 (v : fb_var_screeninfo) : Prop := v.xres < 4294967296 ∧ v.yres < 4294967296

instance (v : fb_var_screeninfo) : Decidable (res32 v) := by
  unfold res32; infer_instance

/-- The fit-to-screen rectangle as the specification words it, in plain
natural-number arithmetic: `scaleToX = source_w_mm * dest_h_mm / source_h_mm`,
`scaleToY = source_h_mm * dest_w_mm / source_w_mm`; when `scaleToX ≤ dest_w_mm`
the width is `scaleToX * workingWidth / dest_w_mm`, the height is the working
height and the rectangle is horizontally centred; otherwise the width is the
working width, the height is `scaleToY * workingHeight / dest_h_mm` and the
rectangle is vertically centred. -/
def fit_rect_spec (p : PhysSize) (workingWidth workingHeight : Nat) : mdp_rect :=
  let scaleToX := p.srcSizeX * p.dstSizeY / p.srcSizeY
  let scaleToY := p.srcSizeY * p.dstSizeX / p.srcSizeX
  if scaleToX ≤ p.dstSizeX then
    { x := (workingWidth - scaleToX * workingWidth / p.dstSizeX) / 2
      y := 0
      w := scaleToX * workingWidth / p.dstSizeX
      h := workingHeight }
  else
    { x := 0
      y := (workingHeight - scaleToY * workingHeight / p.dstSizeY) / 2
      w := workingWidth
      h := scaleToY * workingHeight / p.dstSizeY }

/-- The arithmetic of the fit-to-screen case is well defined in 32 bits: the four
physical sizes are non-zero, the two cross products fit in 32 bits, and so does
the product computed in the branch that is taken. -/
def fit_arith_ok (p : PhysSize) (workingWidth workingHeight : Nat) : Prop :=
  p.srcSizeX ≠ 0 ∧ p.srcSizeY ≠ 0 ∧ p.dstSizeX ≠ 0 ∧ p.dstSizeY ≠ 0 ∧
  p.srcSizeX * p.dstSizeY < 4294967296 ∧
  p.srcSizeY * p.dstSizeX < 4294967296 ∧
  (p.srcSizeX * p.dstSizeY / p.srcSizeY ≤ p.dstSizeX →
    p.srcSizeX * p.dstSizeY / p.srcSizeY * workingWidth < 4294967296) ∧
  (¬ p.srcSizeX * p.dstSizeY / p.srcSizeY ≤ p.dstSizeX →
    p.srcSizeY * p.dstSizeX / p.srcSizeX * workingHeight < 4294967296)

instance (p : PhysSize) (workingWidth workingHeight : Nat) :
    Decidable (fit_arith_ok p workingWidth workingHeight) := by
  unfold fit_arith_ok; infer_instance

/-- The rectangle with x and y, and w and h, exchanged. -/
def transpose_rect (r : mdp_rect) : mdp_rect := { x := r.y, y := r.x, w := r.h, h := r.w }

/-- The destination with its pixel width and height exchanged. -/
def swap_dst (dst : fb_var_screeninfo) : fb_var_screeninfo :=
  { dst with
    xres := dst.yres
    yres := dst.xres }

/-- The request with its rotation flag blanked, for comparing everything else. -/
def without_flags (req : mdp_blit_req) : mdp_blit_req := { req with flags := 0 }

/-- The event is a resolution selection (one per call of `mirroring_setResolution`). -/
def Event.isSelect : Event → Bool
  | Event.edid_get_best_resolution => true
  | _ => false

/-- The event is a start of the mirror loop. -/
def Event.isStart : Event → Bool
  | Event.hdmi_startMirroring _ => true
  | _ => false

/-- The event is a stop of the mirror loop. -/
def Event.isStop : Event → Bool
  | Event.hdmi_stopMirroring _ => true
  | _ => false

/-- The event is one of the calls that drive the mirror loop: a resolution
selection, a start or a stop. -/
def Event.isLoopCall (e : Event) : Bool := e.isSelect || e.isStart || e.isStop

/-! ## Sample inputs -/

/-- A 1920x1080 source of 150mm x 85mm. -/
def src_sample : fb_var_screeninfo :=
  { xres := 1920, yres := 1080, xres_virtual := 1920, yoffset := 0, bits_per_pixel := 32,
    height := 85, width := 150, other := [] }

/-- A 1280x720 destination. -/
def dst_sample : fb_var_screeninfo :=
  { xres := 1280, yres := 720, xres_virtual := 1280, yoffset := 0, bits_per_pixel := 16,
    height := 0, width := 0, other := [] }

/-- A successful orientation read reporting the natural orientation. -/
def sf_sample : sf_read := { ret := 160, orientation := 0 }

/-- Stretch with a 90 degree rotation and overscan 61 x 31. -/
def settings_stretch_sample : internal_mirror_settings :=
  { settings_init with
    rotation := ROTATE_90
    scaling := SCALING_STRETCH
    overscanX := 61
    overscanY := 31 }

/-- Fit-to-screen with no rotation and no overscan. -/
def settings_fit_sample : internal_mirror_settings :=
  { settings_init with
    rotation := ROTATE_0
    overscanX := 0
    overscanY := 0 }

/-- Centre scaling without rotation, with a configured overscan of 60 x 60. -/
def settings_center_sample : internal_mirror_settings :=
  { settings_init with
    rotation := ROTATE_0
    scaling := SCALING_CENTER }

/-- A scaling value that is none of the three enumerators. -/
def settings_invalid_sample : internal_mirror_settings :=
  { settings_init with
    rotation := ROTATE_0
    scaling := 7 }

/-- A request block holding an earlier, valid descriptor. -/
def req_prior_sample : mdp_blit_req :=
  { req_preinit mdp_consts_sample src_sample dst_sample with
    src_rect := { x := 0, y := 0, w := 1920, h := 1080 }
    dst_rect := { x := 8, y := 0, w := 1264, h := 720 } }

/-- A world in which the last frame had the sample source geometry and the
scaling mode has since been set to an invalid value. -/
def world_invalid_sample : World :=
  { settings := settings_invalid_sample, lastSrc := src_sample, log := [] }

/-- A world in which the last frame had another source geometry, so that the
change detector asks for a recompute, and the scaling mode is invalid. -/
def world_invalid_stale_sample : World :=
  { settings := settings_invalid_sample, lastSrc := lastSrc_init, log := [] }

/-- A freshly initialised world. -/
def world_init : World :=
  { settings := settings_init, lastSrc := lastSrc_init, log := [] }

/-- The request block after the first frame on the sample geometry with the
initial settings. -/
def req_first_sample : mdp_blit_req :=
  { req_entry mdp_consts_sample sf_sample settings_init src_sample dst_sample with
    dst_rect := { x := 38, y := 30, w := 1204, h := 660 } }

/-- The world after the first frame on the sample geometry with the initial
settings. -/
def world_first_sample : World :=
  { settings := resolveCurrent sf_sample settings_init
    lastSrc := src_sample
    log := [eraseFrameBuffer dst_sample, Event.hdmi_blit_on_vsync req_first_sample] }

/-- A world in which mirroring is active. -/
def world_active_sample : World :=
  { settings := { settings_init with mirroringState := 1 }, lastSrc := src_sample, log := [] }

/-- Centre scaling with a 90 degree rotation. -/
def settings_center_rot_sample : internal_mirror_settings :=
  { settings_init with
    rotation := ROTATE_90
    scaling := SCALING_CENTER }

/-- A source that reports no physical size. -/
def src_nosize_sample : fb_var_screeninfo :=
  { src_sample with
    height := 0
    width := 150 }

/-- Fit-to-screen with a 270 degree rotation and the initial overscan. -/
def settings_fit_rot_sample : internal_mirror_settings :=
  { settings_init with rotation := ROTATE_270 }

/-- Fit-to-screen with a 90 degree rotation and overscan 60 x 30. -/
def settings_fit_rot90_sample : internal_mirror_settings :=
  { settings_init with
    rotation := ROTATE_90
    overscanX := 60
    overscanY := 30 }

/-- Fit-to-screen with no rotation and the overscan of `settings_fit_rot90_sample`
exchanged between the axes. -/
def settings_fit_swapped_sample : internal_mirror_settings :=
  { settings_init with
    rotation := ROTATE_0
    overscanX := 30
    overscanY := 60 }

/-! # Theorems -/

/-! ## Arithmetic lemmas -/

theorem sar_one (i : Int) : sar i 1 = i / 2 := by
  unfold sar
  show i >>> (1 : Nat) = i / 2
  rw [Int.shiftRight_eq_div_pow]; norm_num

theorem shr_one (n : Nat) : n >>> 1 = n / 2 := by
  rw [Nat.shiftRight_eq_div_pow]

theorem toU32_lt (i : Int) : toU32 i < 4294967296 := by
  unfold toU32; omega

theorem toU32_of_range (i : Int) (h0 : 0 ≤ i) (h1 : i < 4294967296) : (toU32 i : Int) = i := by
  unfold toU32; omega

theorem toU32_toI32 (n : Nat) : toU32 (toI32 n) = n % 4294967296 := by
  unfold toU32 toI32; split <;> omega

theorem usub_of_le (a b : Nat) (h : b ≤ a) (ha : a < 4294967296) : usub a b = a - b := by
  unfold usub toU32; omega

theorem usubI_cast (a : Nat) (i : Int) (h0 : 0 ≤ i) (h1 : i ≤ a) (ha : a < 4294967296) :
    (usubI a i : Int) = a - i := by
  unfold usubI toU32; omega

theorem udiv_of_ne (a b : Nat) (h : b ≠ 0) : udiv a b = some (a / b) := by
  simp [udiv, h]

/-! ## Unfolding `calculateBlitDetails` by scaling mode -/

theorem resolveCurrent_scaling (sf : sf_read) (s : internal_mirror_settings) :
    (resolveCurrent sf s).scaling = s.scaling := rfl

theorem calc_stretch (K : mdp_consts) (edidX edidY : Nat) (sf : sf_read)
    (s : internal_mirror_settings) (src dst : fb_var_screeninfo)
    (hs : s.scaling = SCALING_STRETCH) :
    calculateBlitDetails K edidX edidY sf s src dst
      = some (true, resolveCurrent sf s,
          { req_entry K sf s src dst with
            dst_rect := transferBack false
              (stretch_rect (req_entry K sf s src dst) (resolveCurrent sf s))
              (resolveCurrent sf s) }) := by
  simp only [calculateBlitDetails, resolveCurrent_scaling, hs, if_true, req_entry]

theorem calc_center (K : mdp_consts) (edidX edidY : Nat) (sf : sf_read)
    (s : internal_mirror_settings) (src dst : fb_var_screeninfo)
    (hs : s.scaling = SCALING_CENTER) :
    calculateBlitDetails K edidX edidY sf s src dst
      = some (true, resolveCurrent sf s,
          { req_entry K sf s src dst with
            src_rect := center_src_rect src
              (rotationSwitch K (resolveCurrent sf s) dst).dstWidth
              (rotationSwitch K (resolveCurrent sf s) dst).dstHeight (whole_src_rect src)
            dst_rect := transferBack (rotationSwitch K (resolveCurrent sf s) dst).flipDst
              (center_dst_rect src
                (rotationSwitch K (resolveCurrent sf s) dst).dstWidth
                (rotationSwitch K (resolveCurrent sf s) dst).dstHeight)
              (resolveCurrent sf s) }) := by
  simp [calculateBlitDetails, resolveCurrent_scaling, hs, req_entry, SCALING_CENTER,
    SCALING_STRETCH]

theorem calc_fit (K : mdp_consts) (edidX edidY : Nat) (sf : sf_read)
    (s : internal_mirror_settings) (src dst : fb_var_screeninfo)
    (hs : s.scaling = SCALING_FIT_TO_SCREEN) :
    calculateBlitDetails K edidX edidY sf s src dst
      = (fit_rect
          (flipPhys (rotationSwitch K (resolveCurrent sf s) dst).flipDst
            (physSize edidX edidY src dst))
          (rotationSwitch K (resolveCurrent sf s) dst).dstWidth
          (rotationSwitch K (resolveCurrent sf s) dst).dstHeight).map
        fun dst_rect =>
          (true, resolveCurrent sf s,
            { req_entry K sf s src dst with
              dst_rect := transferBack (rotationSwitch K (resolveCurrent sf s) dst).flipDst
                dst_rect (resolveCurrent sf s) }) := by
  simp [calculateBlitDetails, resolveCurrent_scaling, hs, req_entry, SCALING_CENTER,
    SCALING_STRETCH, SCALING_FIT_TO_SCREEN]

theorem calc_invalid (K : mdp_consts) (edidX edidY : Nat) (sf : sf_read)
    (s : internal_mirror_settings) (src dst : fb_var_screeninfo)
    (h0 : s.scaling ≠ SCALING_FIT_TO_SCREEN) (h1 : s.scaling ≠ SCALING_CENTER)
    (h2 : s.scaling ≠ SCALING_STRETCH) :
    calculateBlitDetails K edidX edidY sf s src dst
      = some (false, resolveCurrent sf s, req_entry K sf s src dst) := by
  simp [calculateBlitDetails, resolveCurrent_scaling, h0, h1, h2, req_entry]

/-! ## Stretch (C1) -/

/-- C1: with scaling = Stretch and an overscan between 0 and the destination
resolution on each axis, `calculateBlitDetails` succeeds for every rotation
value; the final destination rectangle is x = overscanX div 2, y = overscanY div 2,
w = destWidth - overscanX, h = destHeight - overscanY, the source rectangle is
the whole source, and that destination rectangle is what transposing the full
working rectangle back (for 90 and 270 degrees) and shifting it would give. -/
theorem stretch_fills_destination (K : mdp_consts) (edidX edidY : Nat) (sf : sf_read)
    (s : internal_mirror_settings) (src dst : fb_var_screeninfo)
    (hs : s.scaling = SCALING_STRETCH)
    (hx0 : 0 ≤ s.overscanX) (hx1 : s.overscanX ≤ (dst.xres : Int))
    (hy0 : 0 ≤ s.overscanY) (hy1 : s.overscanY ≤ (dst.yres : Int))
    (hW : dst.xres < 4294967296) (hH : dst.yres < 4294967296) :
    ∃ req, calculateBlitDetails K edidX edidY sf s src dst
        = some (true, resolveCurrent sf s, req) ∧
      (req.dst_rect.x : Int) = s.overscanX / 2 ∧
      (req.dst_rect.y : Int) = s.overscanY / 2 ∧
      (req.dst_rect.w : Int) = (dst.xres : Int) - s.overscanX ∧
      (req.dst_rect.h : Int) = (dst.yres : Int) - s.overscanY ∧
      req.src_rect = { x := 0, y := 0, w := src.xres, h := src.yres } ∧
      req.dst_rect =
        transferBack (rotationSwitch K (resolveCurrent sf s) dst).flipDst
          { x := 0, y := 0
            w := (rotationSwitch K (resolveCurrent sf s) dst).dstWidth
            h := (rotationSwitch K (resolveCurrent sf s) dst).dstHeight }
          (resolveCurrent sf s) := by
  have hox : (resolveCurrent sf s).currentOverscanX = s.overscanX := by
    simp [resolveCurrent, hs, SCALING_STRETCH, SCALING_CENTER]
  have hoy : (resolveCurrent sf s).currentOverscanY = s.overscanY := by
    simp [resolveCurrent, hs, SCALING_STRETCH, SCALING_CENTER]
  refine ⟨_, calc_stretch K edidX edidY sf s src dst hs, ?_, ?_, ?_, ?_, ?_, ?_⟩
  · simp only [transferBack, stretch_rect, hox, sar_one, uaddI]
    simp
    apply toU32_of_range <;> omega
  · simp only [transferBack, stretch_rect, hoy, sar_one, uaddI]
    simp
    apply toU32_of_range <;> omega
  · simp only [transferBack, stretch_rect, hox, req_preinit, req_entry]
    simp
    exact usubI_cast _ _ hx0 hx1 hW
  · simp only [transferBack, stretch_rect, hoy, req_preinit, req_entry]
    simp
    exact usubI_cast _ _ hy0 hy1 hH
  · simp [whole_src_rect, req_entry]
  · simp only [transferBack, stretch_rect, rotationSwitch, req_preinit, req_entry, hox, hoy]
    split_ifs <;> simp_all

theorem stretch_fills_destination_witness :
    ∃ req, calculateBlitDetails mdp_consts_sample 16 9 sf_sample settings_stretch_sample
          src_sample dst_sample
        = some (true, resolveCurrent sf_sample settings_stretch_sample, req) ∧
      (req.dst_rect.x : Int) = settings_stretch_sample.overscanX / 2 ∧
      (req.dst_rect.y : Int) = settings_stretch_sample.overscanY / 2 ∧
      (req.dst_rect.w : Int) = (dst_sample.xres : Int) - settings_stretch_sample.overscanX ∧
      (req.dst_rect.h : Int) = (dst_sample.yres : Int) - settings_stretch_sample.overscanY ∧
      req.src_rect = { x := 0, y := 0, w := src_sample.xres, h := src_sample.yres } ∧
      req.dst_rect =
        transferBack
          (rotationSwitch mdp_consts_sample
            (resolveCurrent sf_sample settings_stretch_sample) dst_sample).flipDst
          { x := 0, y := 0
            w := (rotationSwitch mdp_consts_sample
              (resolveCurrent sf_sample settings_stretch_sample) dst_sample).dstWidth
            h := (rotationSwitch mdp_consts_sample
              (resolveCurrent sf_sample settings_stretch_sample) dst_sample).dstHeight }
          (resolveCurrent sf_sample settings_stretch_sample) :=
  stretch_fills_destination mdp_consts_sample 16 9 sf_sample settings_stretch_sample
    src_sample dst_sample rfl (by decide) (by decide) (by decide) (by decide) (by decide)
    (by decide)

/-! ## Fit-to-screen on the 1920x1080 sample (C2) -/

theorem fit_sample_eval (K : mdp_consts) (sf : sf_read) :
    calculateBlitDetails K 16 9 sf settings_fit_sample src_sample dst_sample
      = some (true, resolveCurrent sf settings_fit_sample,
          { req_entry K sf settings_fit_sample src_sample dst_sample with
            dst_rect := { x := 8, y := 0, w := 1264, h := 720 } }) := by
  have hrot : rotationSwitch K (resolveCurrent sf settings_fit_sample) dst_sample
      = { flags := K.MDP_ROT_NOP, dstWidth := 1280, dstHeight := 720, flipDst := false } := rfl
  have hfit : fit_rect (flipPhys false (physSize 16 9 src_sample dst_sample)) 1280 720
      = some { x := 8, y := 0, w := 1264, h := 720 } := rfl
  have htb : transferBack false { x := 8, y := 0, w := 1264, h := 720 }
      (resolveCurrent sf settings_fit_sample) = { x := 8, y := 0, w := 1264, h := 720 } := rfl
  rw [calc_fit K 16 9 sf settings_fit_sample src_sample dst_sample rfl, hrot]
  simp only [hfit, Option.map_some', htb]

/-- C2 as stated fails: on the source 1920x1080 of 150mm x 85mm and the
destination 1280x720 of 16cm x 9cm, fit-to-screen without rotation or overscan,
the computed width is more than one pixel below 1268 and the computed x is more
than one pixel above 6. -/
theorem fit_sample_not_within_one_pixel :
    ∃ req, calculateBlitDetails mdp_consts_sample 16 9 sf_sample settings_fit_sample
          src_sample dst_sample
        = some (true, resolveCurrent sf_sample settings_fit_sample, req) ∧
      req.dst_rect.w + 1 < 1268 ∧ 6 + 1 < req.dst_rect.x :=
  ⟨_, fit_sample_eval mdp_consts_sample sf_sample, by decide, by decide⟩

/-- C2, amended: on that input the width-constrained branch is taken
(scaleToX = 158 does not exceed the destination width of 160mm) and the
destination rectangle is x = 8, y = 0, w = 1264, h = 720. -/
theorem fit_sample_rect (K : mdp_consts) (sf : sf_read) :
    udiv (umul (physSize 16 9 src_sample dst_sample).srcSizeX
        (physSize 16 9 src_sample dst_sample).dstSizeY)
      (physSize 16 9 src_sample dst_sample).srcSizeY = some 158 ∧
    toU32 (toI32 158) ≤ (physSize 16 9 src_sample dst_sample).dstSizeX ∧
    (rotationSwitch K (resolveCurrent sf settings_fit_sample) dst_sample).flipDst = false ∧
    ∃ req, calculateBlitDetails K 16 9 sf settings_fit_sample src_sample dst_sample
        = some (true, resolveCurrent sf settings_fit_sample, req) ∧
      req.dst_rect = { x := 8, y := 0, w := 1264, h := 720 } :=
  ⟨rfl, by decide, rfl, _, fit_sample_eval K sf, rfl⟩

/-! ## Centre without axis swap (C3) -/

theorem usubI_zero (a : Nat) (ha : a < 4294967296) : usubI a 0 = a := by
  unfold usubI toU32; omega

theorem uaddI_sar_zero (a : Nat) (ha : a < 4294967296) : uaddI a (sar 0 1) = a := by
  rw [sar_one]; unfold uaddI toU32; omega

theorem usub_shr_lt (a b : Nat) : usub a b >>> 1 < 4294967296 := by
  rw [shr_one]; unfold usub; have := toU32_lt ((a : Int) - (b : Int)); omega

/-- C3: with scaling = Center and a resolved rotation of 0 or 180 degrees, each
axis is treated on its own: a source extent that fits is centred (offset
(dest - source) div 2, extent of the source, source uncropped), a larger one
fills the destination from offset 0 and the source is cropped symmetrically
(offset (source - dest) div 2, extent of the destination). The overscan in effect
is zero and the request does not depend on the configured overscan. -/
theorem center_unrotated (K : mdp_consts) (edidX edidY : Nat) (sf : sf_read)
    (s : internal_mirror_settings) (src dst : fb_var_screeninfo)
    (hs : s.scaling = SCALING_CENTER)
    (hr : (resolveCurrent sf s).currentRotation = ROTATE_0 ∨
      (resolveCurrent sf s).currentRotation = ROTATE_180)
    (hsrc : res32 src) (hdst : res32 dst) :
    ∃ req, calculateBlitDetails K edidX edidY sf s src dst
        = some (true, resolveCurrent sf s, req) ∧
      (if src.xres ≤ dst.xres then
        req.dst_rect.x = (dst.xres - src.xres) / 2 ∧ req.dst_rect.w = src.xres ∧
          req.src_rect.x = 0 ∧ req.src_rect.w = src.xres
      else
        req.dst_rect.x = 0 ∧ req.dst_rect.w = dst.xres ∧
          req.src_rect.x = (src.xres - dst.xres) / 2 ∧ req.src_rect.w = dst.xres) ∧
      (if src.yres ≤ dst.yres then
        req.dst_rect.y = (dst.yres - src.yres) / 2 ∧ req.dst_rect.h = src.yres ∧
          req.src_rect.y = 0 ∧ req.src_rect.h = src.yres
      else
        req.dst_rect.y = 0 ∧ req.dst_rect.h = dst.yres ∧
          req.src_rect.y = (src.yres - dst.yres) / 2 ∧ req.src_rect.h = dst.yres) ∧
      (resolveCurrent sf s).currentOverscanX = 0 ∧
      (resolveCurrent sf s).currentOverscanY = 0 ∧
      ∀ ox oy : Int,
        (calculateBlitDetails K edidX edidY sf { s with overscanX := ox, overscanY := oy }
          src dst).map (fun r => r.2.2) = some req := by
  obtain ⟨hsx, hsy⟩ := hsrc
  obtain ⟨hdx, hdy⟩ := hdst
  have hox : (resolveCurrent sf s).currentOverscanX = 0 := by simp [resolveCurrent, hs]
  have hoy : (resolveCurrent sf s).currentOverscanY = 0 := by simp [resolveCurrent, hs]
  have hrot : (rotationSwitch K (resolveCurrent sf s) dst).dstWidth = dst.xres ∧
      (rotationSwitch K (resolveCurrent sf s) dst).dstHeight = dst.yres ∧
      (rotationSwitch K (resolveCurrent sf s) dst).flipDst = false := by
    rcases hr with h | h <;>
      simp [rotationSwitch, h, hox, hoy, ROTATE_0, ROTATE_90, ROTATE_180, ROTATE_270,
        usubI_zero, hdx, hdy]
  obtain ⟨hw, hh, hf⟩ := hrot
  have htb : ∀ R : mdp_rect, R.x < 4294967296 → R.y < 4294967296 →
      transferBack false R (resolveCurrent sf s) = R := by
    intro R hx hy
    simp [transferBack, hox, hoy, uaddI_sar_zero, hx, hy]
  have hcx : (center_dst_rect src dst.xres dst.yres).x < 4294967296 := by
    unfold center_dst_rect; dsimp only; split_ifs
    · exact usub_shr_lt _ _
    · omega
  have hcy : (center_dst_rect src dst.xres dst.yres).y < 4294967296 := by
    unfold center_dst_rect; dsimp only; split_ifs
    · exact usub_shr_lt _ _
    · omega
  refine ⟨_, calc_center K edidX edidY sf s src dst hs, ?_, ?_, hox, hoy, ?_⟩
  · dsimp only
    rw [hw, hh, hf, htb _ hcx hcy]
    dsimp only [center_dst_rect, center_src_rect, whole_src_rect]
    split_ifs with h
    · refine ⟨?_, rfl, rfl, rfl⟩
      rw [shr_one, usub_of_le _ _ h hdx]
    · refine ⟨rfl, rfl, ?_, rfl⟩
      rw [shr_one, usub_of_le _ _ (by omega) hsx]
  · dsimp only
    rw [hw, hh, hf, htb _ hcx hcy]
    dsimp only [center_dst_rect, center_src_rect, whole_src_rect]
    split_ifs with h
    · refine ⟨?_, rfl, rfl, rfl⟩
      rw [shr_one, usub_of_le _ _ h hdy]
    · refine ⟨rfl, rfl, ?_, rfl⟩
      rw [shr_one, usub_of_le _ _ (by omega) hsy]
  · intro ox oy
    rw [calc_center K edidX edidY sf { s with overscanX := ox, overscanY := oy } src dst hs]
    simp [req_entry, rotationSwitch, resolveCurrent, transferBack, hs]

theorem center_unrotated_witness :
    res32 src_sample ∧ res32 dst_sample ∧
    ∃ req, calculateBlitDetails mdp_consts_sample 16 9 sf_sample settings_center_sample
          src_sample dst_sample
        = some (true, resolveCurrent sf_sample settings_center_sample, req) ∧
      req.dst_rect = { x := 0, y := 0, w := 1280, h := 720 } ∧
      req.src_rect = { x := 320, y := 180, w := 1280, h := 720 } := by
  have hs : res32 src_sample := by decide
  have hd : res32 dst_sample := by decide
  obtain ⟨req, h, hx, hy, -⟩ :=
    center_unrotated mdp_consts_sample 16 9 sf_sample settings_center_sample
      src_sample dst_sample rfl (Or.inl rfl) hs hd
  refine ⟨hs, hd, req, h, ?_, ?_⟩
  · rw [calc_center _ _ _ _ _ _ _ rfl] at h
    cases h; rfl
  · rw [calc_center _ _ _ _ _ _ _ rfl] at h
    cases h; rfl

/-! ## Fit-to-screen (C4) -/

theorem umul_of_lt (a b : Nat) (h : a * b < 4294967296) : umul a b = a * b := by
  unfold umul; exact Nat.mod_eq_of_lt h

theorem toU32_toI32_of_lt (n : Nat) (h : n < 4294967296) : toU32 (toI32 n) = n := by
  rw [toU32_toI32]; exact Nat.mod_eq_of_lt h

/-- When `a * d / b` exceeds `c`, the opposite quotient `b * c / a` is at most `d`. -/
theorem cross_quotient_le (a b c d : Nat) (ha : a ≠ 0) (hb : b ≠ 0)
    (h : ¬ a * d / b ≤ c) : b * c / a ≤ d := by
  have hb0 : 0 < b := Nat.pos_of_ne_zero hb
  have ha0 : 0 < a := Nat.pos_of_ne_zero ha
  have h1 : c + 1 ≤ a * d / b := by omega
  have h2 : (c + 1) * b ≤ a * d := (Nat.le_div_iff_mul_le hb0).mp h1
  apply Nat.div_le_of_le_mul
  nlinarith

/-- A quotient `s * W / d` with `s ≤ d` is at most `W`. -/
theorem scaled_le (s W d : Nat) (h : s ≤ d) : s * W / d ≤ W := by
  apply Nat.div_le_of_le_mul
  exact Nat.mul_le_mul_right W h

theorem fit_rect_eq (p : PhysSize) (W H : Nat) (hok : fit_arith_ok p W H)
    (hW : W < 4294967296) (hH : H < 4294967296) :
    fit_rect p W H = some (fit_rect_spec p W H) := by
  obtain ⟨hsx, hsy, hdx, hdy, h1, h2, h3, h4⟩ := hok
  have hqx : p.srcSizeX * p.dstSizeY / p.srcSizeY < 4294967296 :=
    lt_of_le_of_lt (Nat.div_le_self _ _) h1
  have hqy : p.srcSizeY * p.dstSizeX / p.srcSizeX < 4294967296 :=
    lt_of_le_of_lt (Nat.div_le_self _ _) h2
  simp only [fit_rect, umul_of_lt _ _ h1, umul_of_lt _ _ h2, udiv_of_ne _ _ hsy,
    udiv_of_ne _ _ hsx, Option.bind_eq_bind, Option.some_bind, toU32_toI32_of_lt _ hqx,
    toU32_toI32_of_lt _ hqy, fit_rect_spec]
  by_cases hc : p.srcSizeX * p.dstSizeY / p.srcSizeY ≤ p.dstSizeX
  · have hw := scaled_le _ W _ hc
    simp only [hc, if_true, umul_of_lt _ _ (h3 hc), udiv_of_ne _ _ hdx, Option.some_bind,
      shr_one, usub_of_le _ _ hw hW]
    rfl
  · have hy := cross_quotient_le _ _ _ _ hsx hsy hc
    have hh := scaled_le _ H _ hy
    simp only [hc, if_false, umul_of_lt _ _ (h4 hc), udiv_of_ne _ _ hdy, Option.some_bind,
      shr_one, usub_of_le _ _ hh hH]
    rfl

theorem rot_dstWidth_lt (K : mdp_consts) (s : internal_mirror_settings)
    (dst : fb_var_screeninfo) : (rotationSwitch K s dst).dstWidth < 4294967296 := by
  unfold rotationSwitch; split_ifs <;> exact toU32_lt _

theorem rot_dstHeight_lt (K : mdp_consts) (s : internal_mirror_settings)
    (dst : fb_var_screeninfo) : (rotationSwitch K s dst).dstHeight < 4294967296 := by
  unfold rotationSwitch; split_ifs <;> exact toU32_lt _

/-- C4: with scaling = FitToScreen, non-zero physical sizes (the destination's
taken after the swap for 90 and 270 degrees) and products that fit in 32 bits,
`calculateBlitDetails` succeeds, the source rectangle is the whole source, and
the unrotated destination rectangle is the one of the stated formula: width
scaleToX * workingWidth div dstW_mm, full height, horizontally centred when
scaleToX is at most dstW_mm, and otherwise full width, height
scaleToY * workingHeight div dstH_mm, vertically centred. The request holds that
rectangle transferred back. -/
theorem fit_to_screen_rect (K : mdp_consts) (edidX edidY : Nat) (sf : sf_read)
    (s : internal_mirror_settings) (src dst : fb_var_screeninfo)
    (hs : s.scaling = SCALING_FIT_TO_SCREEN)
    (hok : fit_arith_ok (phys_at_switch K edidX edidY sf s src dst)
      (rot_at_switch K sf s dst).dstWidth (rot_at_switch K sf s dst).dstHeight) :
    fit_rect (phys_at_switch K edidX edidY sf s src dst)
        (rot_at_switch K sf s dst).dstWidth (rot_at_switch K sf s dst).dstHeight
      = some (fit_rect_spec (phys_at_switch K edidX edidY sf s src dst)
          (rot_at_switch K sf s dst).dstWidth (rot_at_switch K sf s dst).dstHeight) ∧
    ∃ req, calculateBlitDetails K edidX edidY sf s src dst
        = some (true, resolveCurrent sf s, req) ∧
      req.src_rect = { x := 0, y := 0, w := src.xres, h := src.yres } ∧
      req.dst_rect = transferBack (rot_at_switch K sf s dst).flipDst
        (fit_rect_spec (phys_at_switch K edidX edidY sf s src dst)
          (rot_at_switch K sf s dst).dstWidth (rot_at_switch K sf s dst).dstHeight)
        (resolveCurrent sf s) := by
  have hfit := fit_rect_eq _ _ _ hok (rot_dstWidth_lt K (resolveCurrent sf s) dst)
    (rot_dstHeight_lt K (resolveCurrent sf s) dst)
  refine ⟨hfit, ?_⟩
  rw [calc_fit K edidX edidY sf s src dst hs]
  unfold phys_at_switch rot_at_switch at hfit
  rw [hfit]
  exact ⟨_, rfl, rfl, rfl⟩

theorem fit_to_screen_rect_witness :
    fit_arith_ok (phys_at_switch mdp_consts_sample 16 9 sf_sample settings_fit_sample
        src_sample dst_sample)
      (rot_at_switch mdp_consts_sample sf_sample settings_fit_sample dst_sample).dstWidth
      (rot_at_switch mdp_consts_sample sf_sample settings_fit_sample dst_sample).dstHeight ∧
    ∃ req, calculateBlitDetails mdp_consts_sample 16 9 sf_sample settings_fit_sample
          src_sample dst_sample
        = some (true, resolveCurrent sf_sample settings_fit_sample, req) ∧
      req.src_rect = { x := 0, y := 0, w := 1920, h := 1080 } ∧
      req.dst_rect = { x := 8, y := 0, w := 1264, h := 720 } := by
  have hok : fit_arith_ok (phys_at_switch mdp_consts_sample 16 9 sf_sample
        settings_fit_sample src_sample dst_sample)
      (rot_at_switch mdp_consts_sample sf_sample settings_fit_sample dst_sample).dstWidth
      (rot_at_switch mdp_consts_sample sf_sample settings_fit_sample dst_sample).dstHeight := by
    decide
  obtain ⟨-, req, h, hsrc, hdst⟩ :=
    fit_to_screen_rect mdp_consts_sample 16 9 sf_sample settings_fit_sample
      src_sample dst_sample rfl hok
  exact ⟨hok, req, h, hsrc, hdst.trans rfl⟩

/-! ## The destination rectangle stays inside the destination (C6) -/

theorem fit_rect_spec_inside (p : PhysSize) (W H : Nat) (hok : fit_arith_ok p W H) :
    (fit_rect_spec p W H).x + (fit_rect_spec p W H).w ≤ W ∧
    (fit_rect_spec p W H).y + (fit_rect_spec p W H).h ≤ H := by
  obtain ⟨hsx, hsy, -, -, -, -, -, -⟩ := hok
  unfold fit_rect_spec
  by_cases hc : p.srcSizeX * p.dstSizeY / p.srcSizeY ≤ p.dstSizeX
  · have hw := scaled_le _ W _ hc
    simp only [hc, if_true]
    omega
  · have hy := cross_quotient_le _ _ _ _ hsx hsy hc
    have hh := scaled_le _ H _ hy
    simp only [hc, if_false]
    omega

theorem center_dst_rect_inside (src : fb_var_screeninfo) (W H : Nat)
    (hW : W < 4294967296) (hH : H < 4294967296) :
    (center_dst_rect src W H).x + (center_dst_rect src W H).w ≤ W ∧
    (center_dst_rect src W H).y + (center_dst_rect src W H).h ≤ H := by
  unfold center_dst_rect
  dsimp only
  constructor
  · split_ifs with h
    · rw [shr_one, usub_of_le _ _ h hW]; omega
    · omega
  · split_ifs with h
    · rw [shr_one, usub_of_le _ _ h hH]; omega
    · omega

/-- A rectangle inside the working area, transferred back with an overscan in
effect between 0 and the destination resolution, lies inside the destination. -/
theorem transferBack_inside (K : mdp_consts) (s : internal_mirror_settings)
    (dst : fb_var_screeninfo) (R : mdp_rect)
    (hx0 : 0 ≤ s.currentOverscanX) (hx1 : s.currentOverscanX ≤ (dst.xres : Int))
    (hy0 : 0 ≤ s.currentOverscanY) (hy1 : s.currentOverscanY ≤ (dst.yres : Int))
    (hdst : res32 dst)
    (hRx : R.x + R.w ≤ (rotationSwitch K s dst).dstWidth)
    (hRy : R.y + R.h ≤ (rotationSwitch K s dst).dstHeight) :
    (transferBack (rotationSwitch K s dst).flipDst R s).x +
        (transferBack (rotationSwitch K s dst).flipDst R s).w ≤ dst.xres ∧
    (transferBack (rotationSwitch K s dst).flipDst R s).y +
        (transferBack (rotationSwitch K s dst).flipDst R s).h ≤ dst.yres := by
  obtain ⟨hdx, hdy⟩ := hdst
  have hX : ((usubI dst.xres s.currentOverscanX : Nat) : Int)
      = dst.xres - s.currentOverscanX := usubI_cast _ _ hx0 hx1 hdx
  have hY : ((usubI dst.yres s.currentOverscanY : Nat) : Int)
      = dst.yres - s.currentOverscanY := usubI_cast _ _ hy0 hy1 hdy
  unfold rotationSwitch at hRx hRy ⊢
  unfold transferBack
  simp only [sar_one, uaddI, toU32]
  split_ifs at hRx hRy ⊢ <;> dsimp only at hRx hRy ⊢ <;> first | omega | simp_all

/-- C6: for each of the three scaling modes and every rotation value, with an
overscan between 0 and the destination resolution on each axis and, for
fit-to-screen, non-zero physical sizes and products that fit in 32 bits,
`calculateBlitDetails` succeeds and the final destination rectangle lies inside
the destination buffer: x + w ≤ destWidth and y + h ≤ destHeight. -/
theorem dst_rect_inside_destination (K : mdp_consts) (edidX edidY : Nat) (sf : sf_read)
    (s : internal_mirror_settings) (src dst : fb_var_screeninfo)
    (hvalid : s.scaling = SCALING_FIT_TO_SCREEN ∨ s.scaling = SCALING_CENTER ∨
      s.scaling = SCALING_STRETCH)
    (hx0 : 0 ≤ s.overscanX) (hx1 : s.overscanX ≤ (dst.xres : Int))
    (hy0 : 0 ≤ s.overscanY) (hy1 : s.overscanY ≤ (dst.yres : Int))
    (hdst : res32 dst)
    (hok : s.scaling = SCALING_FIT_TO_SCREEN →
      fit_arith_ok (phys_at_switch K edidX edidY sf s src dst)
        (rot_at_switch K sf s dst).dstWidth (rot_at_switch K sf s dst).dstHeight) :
    ∃ req, calculateBlitDetails K edidX edidY sf s src dst
        = some (true, resolveCurrent sf s, req) ∧
      req.dst_rect.x + req.dst_rect.w ≤ dst.xres ∧
      req.dst_rect.y + req.dst_rect.h ≤ dst.yres := by
  have hcx0 : 0 ≤ (resolveCurrent sf s).currentOverscanX := by
    unfold resolveCurrent; dsimp only; split_ifs <;> omega
  have hcx1 : (resolveCurrent sf s).currentOverscanX ≤ (dst.xres : Int) := by
    unfold resolveCurrent; dsimp only; split_ifs <;> omega
  have hcy0 : 0 ≤ (resolveCurrent sf s).currentOverscanY := by
    unfold resolveCurrent; dsimp only; split_ifs <;> omega
  have hcy1 : (resolveCurrent sf s).currentOverscanY ≤ (dst.yres : Int) := by
    unfold resolveCurrent; dsimp only; split_ifs <;> omega
  rcases hvalid with hs | hs | hs
  · have hk := hok hs
    have hfit := fit_rect_eq _ _ _ hk (rot_dstWidth_lt K (resolveCurrent sf s) dst)
      (rot_dstHeight_lt K (resolveCurrent sf s) dst)
    obtain ⟨h1, h2⟩ := fit_rect_spec_inside _ _ _ hk
    obtain ⟨h3, h4⟩ := transferBack_inside K (resolveCurrent sf s) dst _ hcx0 hcx1 hcy0 hcy1
      hdst h1 h2
    rw [calc_fit K edidX edidY sf s src dst hs]
    unfold phys_at_switch rot_at_switch at hfit
    rw [hfit]
    exact ⟨_, rfl, h3, h4⟩
  · obtain ⟨h1, h2⟩ := center_dst_rect_inside src _ _
      (rot_dstWidth_lt K (resolveCurrent sf s) dst) (rot_dstHeight_lt K (resolveCurrent sf s) dst)
    obtain ⟨h3, h4⟩ := transferBack_inside K (resolveCurrent sf s) dst _ hcx0 hcx1 hcy0 hcy1
      hdst h1 h2
    exact ⟨_, calc_center K edidX edidY sf s src dst hs, h3, h4⟩
  · obtain ⟨hdx, hdy⟩ := hdst
    refine ⟨_, calc_stretch K edidX edidY sf s src dst hs, ?_, ?_⟩
    · have hX := usubI_cast _ _ hcx0 hcx1 hdx
      simp only [transferBack, stretch_rect, req_entry, req_preinit, sar_one, uaddI, toU32]
      simp only [Bool.false_eq_true, if_false]
      omega
    · have hY := usubI_cast _ _ hcy0 hcy1 hdy
      simp only [transferBack, stretch_rect, req_entry, req_preinit, sar_one, uaddI, toU32]
      simp only [Bool.false_eq_true, if_false]
      omega

theorem dst_rect_inside_destination_witness :
    ∃ req, calculateBlitDetails mdp_consts_sample 16 9 sf_sample settings_init
          src_sample dst_sample
        = some (true, resolveCurrent sf_sample settings_init, req) ∧
      req.dst_rect.x + req.dst_rect.w ≤ dst_sample.xres ∧
      req.dst_rect.y + req.dst_rect.h ≤ dst_sample.yres :=
  dst_rect_inside_destination mdp_consts_sample 16 9 sf_sample settings_init
    src_sample dst_sample (Or.inl rfl) (by decide) (by decide) (by decide) (by decide)
    (by decide) (fun _ => by decide)

/-! ## Invalid scaling mode (C5) -/

theorem needReqUpdate_snd (sf : sf_read) (s : internal_mirror_settings)
    (lastSrc src : fb_var_screeninfo) (req : mdp_blit_req) :
    (mirroring_needReqUpdate sf s lastSrc src req).2 = src := by
  unfold mirroring_needReqUpdate
  dsimp only
  split_ifs with h1 h2 h3
  · rfl
  · exact not_not.mp h1
  · exact not_not.mp h1
  · exact not_not.mp h1

theorem reportBlit_of_need (K : mdp_consts) (edidX edidY : Nat) (sfDetect sfCalc : sf_read)
    (w : World) (src dst : fb_var_screeninfo) (req : mdp_blit_req)
    (hn : (mirroring_needReqUpdate sfDetect w.settings w.lastSrc src req).1 = true) :
    mirroring_reportBlit K edidX edidY sfDetect sfCalc w src dst req
      = match calculateBlitDetails K edidX edidY sfCalc w.settings src dst with
        | none => none
        | some (false, s, req1) => some (false, { w with settings := s, lastSrc := src }, req1)
        | some (true, s, req1) =>
          some (true,
            { settings := s, lastSrc := src,
              log := w.log ++ [eraseFrameBuffer dst,
                Event.hdmi_blit_on_vsync
                  { req1 with src := { req1.src with offset := scanOffset src } }] },
            { req1 with src := { req1.src with offset := scanOffset src } }) := by
  unfold mirroring_reportBlit
  simp only [hn, if_true, needReqUpdate_snd]

theorem reportBlit_of_not_need (K : mdp_consts) (edidX edidY : Nat)
    (sfDetect sfCalc : sf_read) (w : World) (src dst : fb_var_screeninfo) (req : mdp_blit_req)
    (hn : (mirroring_needReqUpdate sfDetect w.settings w.lastSrc src req).1 = false) :
    mirroring_reportBlit K edidX edidY sfDetect sfCalc w src dst req
      = some (true,
          { w with
            lastSrc := src
            log := w.log ++ [Event.hdmi_blit_on_vsync
              { req with src := { req.src with offset := scanOffset src } }] },
          { req with src := { req.src with offset := scanOffset src } }) := by
  unfold mirroring_reportBlit
  simp only [hn, needReqUpdate_snd]
  rfl

theorem invalid_stale_eval :
    mirroring_reportBlit mdp_consts_sample 16 9 sf_sample sf_sample
        world_invalid_stale_sample src_sample dst_sample req_prior_sample
      = some (false,
          { world_invalid_stale_sample with
            settings := resolveCurrent sf_sample settings_invalid_sample
            lastSrc := src_sample },
          req_entry mdp_consts_sample sf_sample settings_invalid_sample src_sample dst_sample) := by
  rw [reportBlit_of_need _ _ _ _ _ _ _ _ _ (by decide),
    calc_invalid _ _ _ _ _ _ _ (by decide) (by decide) (by decide)]
  rfl

/-- C5 as stated fails: with an invalid scaling mode and a changed source
geometry, `mirroring_reportBlit` returns failure and submits nothing, but the
request block no longer holds the prior descriptor: its destination rectangle is
all zero. -/
theorem invalid_scaling_overwrites_request :
    ∃ w1 req1, mirroring_reportBlit mdp_consts_sample 16 9 sf_sample sf_sample
          world_invalid_stale_sample src_sample dst_sample req_prior_sample
        = some (false, w1, req1) ∧
      w1.log = [] ∧
      req1.dst_rect = { x := 0, y := 0, w := 0, h := 0 } ∧
      req_prior_sample.dst_rect = { x := 8, y := 0, w := 1264, h := 720 } ∧
      req1 ≠ req_prior_sample :=
  ⟨_, _, invalid_stale_eval, rfl, rfl, rfl, by decide⟩

/-- C5, amended: when the scaling mode is none of FitToScreen, Center and
Stretch, `calculateBlitDetails` returns failure and leaves the request block
re-initialised (image descriptions, extra fields, rotation flag and whole-source
rectangle filled in, destination rectangle all zero). When the change detector
asks for a recompute, `mirroring_reportBlit` returns failure with that request
block, submitting no blit and clearing nothing; when it does not,
`calculateBlitDetails` is not run, and the request handed in is submitted with
its scan offset refreshed and success is returned. -/
theorem invalid_scaling_fails (K : mdp_consts) (edidX edidY : Nat)
    (sfDetect sfCalc : sf_read) (w : World) (src dst : fb_var_screeninfo) (req : mdp_blit_req)
    (h0 : w.settings.scaling ≠ SCALING_FIT_TO_SCREEN)
    (h1 : w.settings.scaling ≠ SCALING_CENTER)
    (h2 : w.settings.scaling ≠ SCALING_STRETCH) :
    calculateBlitDetails K edidX edidY sfCalc w.settings src dst
      = some (false, resolveCurrent sfCalc w.settings, req_entry K sfCalc w.settings src dst) ∧
    (req_entry K sfCalc w.settings src dst).dst_rect = mdp_rect_zero ∧
    (req_entry K sfCalc w.settings src dst).src_rect = whole_src_rect src ∧
    ((mirroring_needReqUpdate sfDetect w.settings w.lastSrc src req).1 = true →
      mirroring_reportBlit K edidX edidY sfDetect sfCalc w src dst req
        = some (false,
            { settings := resolveCurrent sfCalc w.settings, lastSrc := src, log := w.log },
            req_entry K sfCalc w.settings src dst)) ∧
    ((mirroring_needReqUpdate sfDetect w.settings w.lastSrc src req).1 = false →
      mirroring_reportBlit K edidX edidY sfDetect sfCalc w src dst req
        = some (true,
            { settings := w.settings, lastSrc := src,
              log := w.log ++ [Event.hdmi_blit_on_vsync
                { req with src := { req.src with offset := scanOffset src } }] },
            { req with src := { req.src with offset := scanOffset src } })) := by
  refine ⟨calc_invalid K edidX edidY sfCalc w.settings src dst h0 h1 h2, rfl, rfl, ?_, ?_⟩
  · intro hn
    rw [reportBlit_of_need _ _ _ _ _ _ _ _ _ hn, calc_invalid _ _ _ _ _ _ _ h0 h1 h2]
  · intro hn
    rw [reportBlit_of_not_need _ _ _ _ _ _ _ _ _ hn]

theorem invalid_scaling_fails_witness :
    calculateBlitDetails mdp_consts_sample 16 9 sf_sample world_invalid_stale_sample.settings
        src_sample dst_sample
      = some (false, resolveCurrent sf_sample settings_invalid_sample,
          req_entry mdp_consts_sample sf_sample settings_invalid_sample src_sample dst_sample) ∧
    mirroring_reportBlit mdp_consts_sample 16 9 sf_sample sf_sample
        world_invalid_stale_sample src_sample dst_sample req_prior_sample
      = some (false,
          { settings := resolveCurrent sf_sample settings_invalid_sample,
            lastSrc := src_sample, log := [] },
          req_entry mdp_consts_sample sf_sample settings_invalid_sample src_sample dst_sample) ∧
    mirroring_reportBlit mdp_consts_sample 16 9 sf_sample sf_sample
        world_invalid_sample src_sample dst_sample req_prior_sample
      = some (true,
          { settings := settings_invalid_sample, lastSrc := src_sample,
            log := [Event.hdmi_blit_on_vsync req_prior_sample] },
          req_prior_sample) := by
  have h := invalid_scaling_fails mdp_consts_sample 16 9 sf_sample sf_sample
    world_invalid_stale_sample src_sample dst_sample req_prior_sample
    (by decide) (by decide) (by decide)
  have h' := invalid_scaling_fails mdp_consts_sample 16 9 sf_sample sf_sample
    world_invalid_sample src_sample dst_sample req_prior_sample
    (by decide) (by decide) (by decide)
  exact ⟨h.1, h.2.2.2.1 (by decide), (h'.2.2.2.2 (by decide)).trans (by decide)⟩

/-! ## Orientation provider (C7) -/

/-- C7: `getOrientation` always returns one of ROTATE_0, ROTATE_90, ROTATE_180,
ROTATE_270 and never ROTATE_AUTO; a full-length read with an orientation byte in
0..3 gives that byte + 1; a read of another length, or a byte above 3, gives
ROTATE_0. -/
theorem getOrientation_concrete (sf : sf_read) :
    (getOrientation sf = ROTATE_0 ∨ getOrientation sf = ROTATE_90 ∨
      getOrientation sf = ROTATE_180 ∨ getOrientation sf = ROTATE_270) ∧
    getOrientation sf ≠ ROTATE_AUTO ∧
    (sf.ret = SIZEOF_surface_flinger_cblk_t → sf.orientation ≤ 3 →
      getOrientation sf = (sf.orientation : Int) + 1) ∧
    (sf.ret ≠ SIZEOF_surface_flinger_cblk_t → getOrientation sf = ROTATE_0) ∧
    (3 < sf.orientation → getOrientation sf = ROTATE_0) := by
  unfold getOrientation ROTATE_0 ROTATE_90 ROTATE_180 ROTATE_270 ROTATE_AUTO
  dsimp only
  refine ⟨?_, ?_, ?_, ?_, ?_⟩
  · split_ifs <;> omega
  · split_ifs <;> omega
  · intro h1 h2; split_ifs <;> omega
  · intro h1; rw [if_pos h1]
  · intro h1; split_ifs <;> omega

theorem getOrientation_concrete_witness :
    getOrientation { ret := 160, orientation := 2 } = ROTATE_180 ∧
    getOrientation { ret := 12, orientation := 2 } = ROTATE_0 ∧
    getOrientation { ret := 160, orientation := 200 } = ROTATE_0 :=
  ⟨(getOrientation_concrete { ret := 160, orientation := 2 }).2.2.1 rfl (by decide),
   (getOrientation_concrete { ret := 12, orientation := 2 }).2.2.2.1 (by decide),
   (getOrientation_concrete { ret := 160, orientation := 200 }).2.2.2.2 (by decide)⟩

/-! ## Change detector (C8, C9) -/

theorem calc_some_inv (K : mdp_consts) (edidX edidY : Nat) (sf : sf_read)
    (s : internal_mirror_settings) (src dst : fb_var_screeninfo) (b : Bool)
    (s1 : internal_mirror_settings) (req1 : mdp_blit_req)
    (h : calculateBlitDetails K edidX edidY sf s src dst = some (b, s1, req1)) :
    s1 = resolveCurrent sf s ∧ req1.src.width = src.xres ∧ req1.src.height = src.yres := by
  unfold calculateBlitDetails at h
  dsimp only at h
  split_ifs at h
  · cases h; exact ⟨rfl, rfl, rfl⟩
  · cases h; exact ⟨rfl, rfl, rfl⟩
  · rw [Option.map_eq_some'] at h
    obtain ⟨R, -, hR⟩ := h
    cases hR; exact ⟨rfl, rfl, rfl⟩
  · cases h; exact ⟨rfl, rfl, rfl⟩

theorem needReqUpdate_fst (sf : sf_read) (s : internal_mirror_settings)
    (lastSrc src : fb_var_screeninfo) (req : mdp_blit_req) :
    (mirroring_needReqUpdate sf s lastSrc src req).1 = true ↔
      ({ lastSrc with yoffset := src.yoffset } ≠ src ∨
        (req.src.width ≠ src.xres ∨ req.src.height ≠ src.yres) ∨
        (s.rotation = ROTATE_AUTO ∧ s.currentRotation ≠ getOrientation sf)) := by
  unfold mirroring_needReqUpdate
  dsimp only
  split_ifs with h1 h2 h3
  · simp [h1]
  · simp [h2]
  · simp [h3]
  · simp only [Bool.false_eq_true, false_iff]
    tauto

/-- C9: `mirroring_needReqUpdate` returns true exactly when the stored snapshot
with its yoffset refreshed differs from the current source geometry, or the
source width or height recorded in the descriptor differs from the live source
resolution, or the rotation mode is Auto and `getOrientation` differs from the
cached `currentRotation`; in every case the snapshot stored on return is the
current source geometry. -/
theorem needReqUpdate_iff (sf : sf_read) (s : internal_mirror_settings)
    (lastSrc src : fb_var_screeninfo) (req : mdp_blit_req) :
    ((mirroring_needReqUpdate sf s lastSrc src req).1 = true ↔
      ({ lastSrc with yoffset := src.yoffset } ≠ src ∨
        (req.src.width ≠ src.xres ∨ req.src.height ≠ src.yres) ∨
        (s.rotation = ROTATE_AUTO ∧ s.currentRotation ≠ getOrientation sf))) ∧
    (mirroring_needReqUpdate sf s lastSrc src req).2 = src :=
  ⟨needReqUpdate_fst sf s lastSrc src req, needReqUpdate_snd sf s lastSrc src req⟩

/-- C8: after a successful `mirroring_reportBlit`, a second call on the request
it left, with the settings it left, an orientation reading that resolves as in
the first call, and a source geometry equal to the first or differing from it
only in yoffset, finds no recompute needed: `calculateBlitDetails` is not run,
nothing is cleared, and the only call made is the blit submission of the same
descriptor with its scan offset refreshed. -/
theorem second_report_no_recompute (K : mdp_consts) (edidX edidY edidX2 edidY2 : Nat)
    (sfDetect sfCalc sfDetect2 sfCalc2 : sf_read) (w w1 : World)
    (src dst dst2 : fb_var_screeninfo) (req req1 : mdp_blit_req) (yoffset2 : Nat)
    (hfirst : mirroring_reportBlit K edidX edidY sfDetect sfCalc w src dst req
      = some (true, w1, req1))
    (ho1 : getOrientation sfDetect2 = getOrientation sfDetect)
    (ho2 : getOrientation sfDetect2 = getOrientation sfCalc) :
    (mirroring_needReqUpdate sfDetect2 w1.settings w1.lastSrc
        { src with yoffset := yoffset2 } req1).1 = false ∧
    mirroring_reportBlit K edidX2 edidY2 sfDetect2 sfCalc2 w1
        { src with yoffset := yoffset2 } dst2 req1
      = some (true,
          { settings := w1.settings, lastSrc := { src with yoffset := yoffset2 },
            log := w1.log ++ [Event.hdmi_blit_on_vsync
              { req1 with src := { req1.src with
                  offset := scanOffset { src with yoffset := yoffset2 } } }] },
          { req1 with src := { req1.src with
              offset := scanOffset { src with yoffset := yoffset2 } } }) := by
  have key : (mirroring_needReqUpdate sfDetect2 w1.settings w1.lastSrc
      { src with yoffset := yoffset2 } req1).1 = false := by
    have hfacts : w1.lastSrc = src ∧ req1.src.width = src.xres ∧ req1.src.height = src.yres ∧
        ¬ (w1.settings.rotation = ROTATE_AUTO ∧
          w1.settings.currentRotation ≠ getOrientation sfDetect2) := by
      by_cases hn : (mirroring_needReqUpdate sfDetect w.settings w.lastSrc src req).1 = true
      · rw [reportBlit_of_need _ _ _ _ _ _ _ _ _ hn] at hfirst
        cases hc : calculateBlitDetails K edidX edidY sfCalc w.settings src dst with
        | none => rw [hc] at hfirst; cases hfirst
        | some r =>
          obtain ⟨b, s1, r1⟩ := r
          obtain ⟨hs1, hw1, hh1⟩ := calc_some_inv _ _ _ _ _ _ _ _ _ _ hc
          rw [hc] at hfirst
          cases b with
          | false => cases hfirst
          | true =>
            cases hfirst
            refine ⟨rfl, hw1, hh1, ?_⟩
            rintro ⟨ha, hb⟩
            apply hb
            rw [hs1, ho2]
            have ha' : w.settings.rotation = ROTATE_AUTO := by rw [hs1] at ha; exact ha
            simp [resolveCurrent, ha']
      · have hn' : (mirroring_needReqUpdate sfDetect w.settings w.lastSrc src req).1 = false := by
          simpa using hn
        rw [reportBlit_of_not_need _ _ _ _ _ _ _ _ _ hn'] at hfirst
        have hiff := (needReqUpdate_fst sfDetect w.settings w.lastSrc src req).not.mp hn
        cases hfirst
        push_neg at hiff
        obtain ⟨-, ⟨hw1, hh1⟩, hrot⟩ := hiff
        refine ⟨rfl, hw1, hh1, ?_⟩
        rintro ⟨ha, hb⟩
        exact hb (by rw [ho1]; exact hrot ha)
    obtain ⟨hl, hw1, hh1, hrot⟩ := hfacts
    have hnot := (needReqUpdate_fst sfDetect2 w1.settings w1.lastSrc
      { src with yoffset := yoffset2 } req1).not.mpr (by
        rw [hl]
        push_neg
        exact ⟨rfl, ⟨hw1, hh1⟩, fun ha => by
          by_contra hb
          exact hrot ⟨ha, hb⟩⟩)
    simpa using hnot
  refine ⟨key, ?_⟩
  rw [reportBlit_of_not_need _ _ _ _ _ _ _ _ _ key]

theorem first_report_sample :
    mirroring_reportBlit mdp_consts_sample 16 9 sf_sample sf_sample world_init
        src_sample dst_sample mdp_blit_req_zero
      = some (true, world_first_sample, req_first_sample) := by
  decide

theorem second_report_no_recompute_witness :
    mirroring_reportBlit mdp_consts_sample 16 9 sf_sample sf_sample world_init
        src_sample dst_sample mdp_blit_req_zero
      = some (true, world_first_sample, req_first_sample) ∧
    (mirroring_needReqUpdate sf_sample world_first_sample.settings world_first_sample.lastSrc
        { src_sample with yoffset := 1080 } req_first_sample).1 = false ∧
    mirroring_reportBlit mdp_consts_sample 16 9 sf_sample sf_sample world_first_sample
        { src_sample with yoffset := 1080 } dst_sample req_first_sample
      = some (true,
          { settings := world_first_sample.settings
            lastSrc := { src_sample with yoffset := 1080 }
            log := world_first_sample.log ++ [Event.hdmi_blit_on_vsync
              { req_first_sample with src := { req_first_sample.src with
                  offset := scanOffset { src_sample with yoffset := 1080 } } }] },
          { req_first_sample with src := { req_first_sample.src with
              offset := scanOffset { src_sample with yoffset := 1080 } } }) :=
  ⟨first_report_sample,
   second_report_no_recompute mdp_consts_sample 16 9 16 9 sf_sample sf_sample sf_sample
     sf_sample world_init world_first_sample src_sample dst_sample dst_sample
     mdp_blit_req_zero req_first_sample 1080 first_report_sample rfl rfl⟩

/-! ## Cable events (C10) -/

theorem setResolution_events (best : Option (Int × Int)) :
    (mirroring_setResolution best).2.filter Event.isSelect = [Event.edid_get_best_resolution] ∧
    (mirroring_setResolution best).2.filter Event.isStart = [] ∧
    (mirroring_setResolution best).2.filter Event.isStop = [] := by
  cases best with
  | none => exact ⟨rfl, rfl, rfl⟩
  | some r => obtain ⟨x, y⟩ := r; exact ⟨rfl, rfl, rfl⟩

/-- C10: from any state `mirroring_cable_conn` sets mirroring-active, leaves every
other setting as it was, and issues one resolution selection followed by one
start with reason 0 and no stop; `mirroring_cable_disconn` issues exactly one
stop with reason 0, no start and no resolution selection, clears
mirroring-active and leaves every other setting as it was. -/
theorem cable_conn_disconn (best : Option (Int × Int)) (w : World) :
    (mirroring_cable_conn best w).settings = { w.settings with mirroringState := 1 } ∧
    (mirroring_cable_conn best w).log
      = w.log ++ ((mirroring_setResolution best).2 ++ [Event.hdmi_startMirroring 0]) ∧
    ((mirroring_setResolution best).2 ++ [Event.hdmi_startMirroring 0]).filter Event.isSelect
      = [Event.edid_get_best_resolution] ∧
    ((mirroring_setResolution best).2 ++ [Event.hdmi_startMirroring 0]).filter Event.isStart
      = [Event.hdmi_startMirroring 0] ∧
    ((mirroring_setResolution best).2 ++ [Event.hdmi_startMirroring 0]).filter Event.isStop
      = [] ∧
    (mirroring_setResolution best).2.filter Event.isSelect = [Event.edid_get_best_resolution] ∧
    (mirroring_setResolution best).2.filter Event.isStart = [] ∧
    (mirroring_cable_conn best w).lastSrc = w.lastSrc ∧
    (mirroring_cable_disconn w).settings = { w.settings with mirroringState := 0 } ∧
    (mirroring_cable_disconn w).log = w.log ++ [Event.hdmi_stopMirroring 0] ∧
    [Event.hdmi_stopMirroring 0].filter Event.isStart = [] ∧
    [Event.hdmi_stopMirroring 0].filter Event.isSelect = [] ∧
    (mirroring_cable_disconn w).lastSrc = w.lastSrc := by
  obtain ⟨h1, h2, h3⟩ := setResolution_events best
  refine ⟨rfl, ?_, ?_, ?_, ?_, h1, h2, rfl, rfl, rfl, rfl, rfl, rfl⟩
  · simp [mirroring_cable_conn]
  · rw [List.filter_append, h1]; rfl
  · rw [List.filter_append, h2]; rfl
  · rw [List.filter_append, h3]; rfl

/-! ## Enable and disable requests (C11, C12, C15) -/

theorem setResolution_loop_calls (best : Option (Int × Int)) :
    (mirroring_setResolution best).2.filter Event.isLoopCall
      = [Event.edid_get_best_resolution] := by
  cases best with
  | none => rfl
  | some r => obtain ⟨x, y⟩ := r; rfl

/-- C11: `mirroring_hdmi_disable_requested` always returns true and never changes
the settings, mirroring-active included. When mirroring-active is false or the
cable is not connected it makes no resolution-selection, start or stop call;
otherwise the calls of those kinds are exactly resolution selection, start with
reason 1, resolution selection, whatever the two selections deliver. -/
theorem disable_requested_calls (connected : Bool) (best1 best2 : Option (Int × Int))
    (w : World) :
    (mirroring_hdmi_disable_requested connected best1 best2 w).1 = true ∧
    (mirroring_hdmi_disable_requested connected best1 best2 w).2.settings = w.settings ∧
    (mirroring_hdmi_disable_requested connected best1 best2 w).2.lastSrc = w.lastSrc ∧
    ∃ evs, (mirroring_hdmi_disable_requested connected best1 best2 w).2.log = w.log ++ evs ∧
      (w.settings.mirroringState = 0 ∨ connected = false →
        evs.filter Event.isLoopCall = []) ∧
      (w.settings.mirroringState ≠ 0 → connected = true →
        evs = [Event.hdmi_isCableConnected] ++ (mirroring_setResolution best1).2 ++
            [Event.hdmi_startMirroring 1] ++ (mirroring_setResolution best2).2 ∧
        evs.filter Event.isLoopCall
          = [Event.edid_get_best_resolution, Event.hdmi_startMirroring 1,
             Event.edid_get_best_resolution]) := by
  by_cases hm : w.settings.mirroringState = 0
  · have hv : mirroring_hdmi_disable_requested connected best1 best2 w = (true, w) := by
      simp [mirroring_hdmi_disable_requested, hm]
    rw [hv]
    exact ⟨rfl, rfl, rfl, [], by simp, fun _ => rfl, fun h => absurd hm h⟩
  · cases connected with
    | false =>
      have hv : mirroring_hdmi_disable_requested false best1 best2 w
          = (true, { w with log := w.log ++ [Event.hdmi_isCableConnected] }) := by
        simp [mirroring_hdmi_disable_requested, hm]
      rw [hv]
      exact ⟨rfl, rfl, rfl, [Event.hdmi_isCableConnected], rfl, fun _ => rfl,
        fun _ h => by cases h⟩
    | true =>
      have hv : mirroring_hdmi_disable_requested true best1 best2 w
          = (true, { w with log := w.log ++ ([Event.hdmi_isCableConnected] ++
              (mirroring_setResolution best1).2 ++ [Event.hdmi_startMirroring 1] ++
              (mirroring_setResolution best2).2) }) := by
        simp [mirroring_hdmi_disable_requested, hm]
      rw [hv]
      refine ⟨rfl, rfl, rfl, _, rfl, ?_, ?_⟩
      · rintro (h | h)
        · exact absurd h hm
        · cases h
      · intro _ _
        refine ⟨rfl, ?_⟩
        simp only [List.filter_append, setResolution_loop_calls]
        rfl

theorem disable_requested_calls_witness :
    (mirroring_hdmi_disable_requested true none (some (1280, 720)) world_active_sample).2.log
      = [Event.hdmi_isCableConnected, Event.edid_get_best_resolution,
         Event.hdmi_startMirroring 1, Event.edid_get_best_resolution,
         Event.fb_set_var 1280 720 1280 1440 16] ∧
    (mirroring_hdmi_disable_requested false none none world_active_sample).2.log
      = [Event.hdmi_isCableConnected] ∧
    (mirroring_hdmi_disable_requested true none none world_init).2.log = [] := by
  obtain ⟨-, -, -, evs, hlog, -, hseq⟩ :=
    disable_requested_calls true none (some (1280, 720)) world_active_sample
  refine ⟨?_, by decide, by decide⟩
  rw [hlog, (hseq (by decide) rfl).1]
  decide

/-- C12 as stated fails: with mirroring active, the request that stops the mirror
loop, `mirroring_hdmi_enable_requested`, leaves mirroring-active true. -/
theorem enable_requested_keeps_active :
    world_active_sample.settings.mirroringState = 1 ∧
    (mirroring_hdmi_enable_requested world_active_sample).2.settings.mirroringState = 1 ∧
    (mirroring_hdmi_enable_requested world_active_sample).2.settings.mirroringState ≠ 0 :=
  ⟨rfl, rfl, by decide⟩

/-- C12, amended: mirroring-active is true after every `mirroring_cable_conn` and
false after every `mirroring_cable_disconn`, whatever its value before; the
request that stops the mirror loop, `mirroring_hdmi_enable_requested`, leaves the
flag as it was. -/
theorem mirroring_active_flag (best : Option (Int × Int)) (w : World) :
    (mirroring_cable_conn best w).settings.mirroringState = 1 ∧
    (mirroring_cable_disconn w).settings.mirroringState = 0 ∧
    (mirroring_hdmi_enable_requested w).2.settings.mirroringState
      = w.settings.mirroringState :=
  ⟨rfl, rfl, rfl⟩

/-- C15: `mirroring_hdmi_enable_requested` returns true from every state and
issues exactly one call, a stop with reason 1: no start and no resolution
selection; the settings are left as they were. -/
theorem enable_requested_stops (w : World) :
    (mirroring_hdmi_enable_requested w).1 = true ∧
    (mirroring_hdmi_enable_requested w).2.log = w.log ++ [Event.hdmi_stopMirroring 1] ∧
    [Event.hdmi_stopMirroring 1].filter Event.isStop = [Event.hdmi_stopMirroring 1] ∧
    [Event.hdmi_stopMirroring 1].filter Event.isStart = [] ∧
    [Event.hdmi_stopMirroring 1].filter Event.isSelect = [] ∧
    (mirroring_hdmi_enable_requested w).2.settings = w.settings ∧
    (mirroring_hdmi_enable_requested w).2.lastSrc = w.lastSrc :=
  ⟨rfl, rfl, rfl, rfl, rfl, rfl, rfl⟩

/-! ## Settings accessors (C13) -/

/-- C13: for every settings value, `mirroring_getSettings` after
`mirroring_setSettings` returns that value in all five fields; the setter leaves
`currentRotation`, `currentOverscanX`, `currentOverscanY`, mirroring-active, the
stored snapshot and the call log as they were. The getter only reads the state. -/
theorem get_after_set (p : mirror_settings) (w : World) :
    mirroring_getSettings (mirroring_setSettings p w) = p ∧
    (mirroring_setSettings p w).settings.currentRotation = w.settings.currentRotation ∧
    (mirroring_setSettings p w).settings.currentOverscanX = w.settings.currentOverscanX ∧
    (mirroring_setSettings p w).settings.currentOverscanY = w.settings.currentOverscanY ∧
    (mirroring_setSettings p w).settings.mirroringState = w.settings.mirroringState ∧
    (mirroring_setSettings p w).lastSrc = w.lastSrc ∧
    (mirroring_setSettings p w).log = w.log :=
  ⟨rfl, rfl, rfl, rfl, rfl, rfl, rfl⟩

/-! ## Scan offset and blit submission (C14) -/

theorem scanOffset_eq (src : fb_var_screeninfo) :
    scanOffset src
      = (src.yoffset * src.xres_virtual * (src.bits_per_pixel / 8)) % 4294967296 := by
  unfold scanOffset umul
  rw [Nat.shiftRight_eq_div_pow, Nat.mod_mul_mod]

/-- C14: whenever `mirroring_reportBlit` returns success, the source scan offset
of the descriptor is yoffset * xres_virtual * (bits_per_pixel div 8) modulo 2^32
of the current source geometry, recomputed or not; the calls made are the blit
submission of that descriptor, once, preceded exactly when the change detector
asked for a recompute by one clearing of the destination: a fill with colour 0 of
the rectangle at (0, 0) that has the destination's full width and height. -/
theorem report_offset_and_blit (K : mdp_consts) (edidX edidY : Nat)
    (sfDetect sfCalc : sf_read) (w w1 : World) (src dst : fb_var_screeninfo)
    (req req1 : mdp_blit_req)
    (h : mirroring_reportBlit K edidX edidY sfDetect sfCalc w src dst req
      = some (true, w1, req1)) :
    req1.src.offset
      = (src.yoffset * src.xres_virtual * (src.bits_per_pixel / 8)) % 4294967296 ∧
    ((mirroring_needReqUpdate sfDetect w.settings w.lastSrc src req).1 = true →
      w1.log = w.log ++
        [Event.cfb_fillrect 0 0 dst.xres dst.yres 0 0, Event.hdmi_blit_on_vsync req1]) ∧
    ((mirroring_needReqUpdate sfDetect w.settings w.lastSrc src req).1 = false →
      w1.log = w.log ++ [Event.hdmi_blit_on_vsync req1]) := by
  by_cases hn : (mirroring_needReqUpdate sfDetect w.settings w.lastSrc src req).1 = true
  · rw [reportBlit_of_need _ _ _ _ _ _ _ _ _ hn] at h
    cases hc : calculateBlitDetails K edidX edidY sfCalc w.settings src dst with
    | none => rw [hc] at h; cases h
    | some r =>
      obtain ⟨b, s1, r1⟩ := r
      rw [hc] at h
      cases b with
      | false => cases h
      | true =>
        cases h
        exact ⟨scanOffset_eq src, fun _ => rfl, fun hf => by rw [hn] at hf; cases hf⟩
  · have hn' : (mirroring_needReqUpdate sfDetect w.settings w.lastSrc src req).1 = false := by
      simpa using hn
    rw [reportBlit_of_not_need _ _ _ _ _ _ _ _ _ hn'] at h
    cases h
    exact ⟨scanOffset_eq src, fun ht => absurd ht hn, fun _ => rfl⟩

theorem report_offset_and_blit_witness :
    mirroring_reportBlit mdp_consts_sample 16 9 sf_sample sf_sample world_init
        src_sample dst_sample mdp_blit_req_zero
      = some (true, world_first_sample, req_first_sample) ∧
    req_first_sample.src.offset
      = (src_sample.yoffset * src_sample.xres_virtual * (src_sample.bits_per_pixel / 8))
          % 4294967296 ∧
    world_first_sample.log = world_init.log ++
      [Event.cfb_fillrect 0 0 1280 720 0 0, Event.hdmi_blit_on_vsync req_first_sample] :=
  ⟨first_report_sample,
   (report_offset_and_blit mdp_consts_sample 16 9 sf_sample sf_sample world_init
     world_first_sample src_sample dst_sample mdp_blit_req_zero req_first_sample
     first_report_sample).1,
   (report_offset_and_blit mdp_consts_sample 16 9 sf_sample sf_sample world_init
     world_first_sample src_sample dst_sample mdp_blit_req_zero req_first_sample
     first_report_sample).2.1 (by decide)⟩

/-! ## Centre: repeated computation and pixel-for-pixel placement (C16, C17) -/

theorem resolveCurrent_idem (sf : sf_read) (s : internal_mirror_settings) :
    resolveCurrent sf (resolveCurrent sf s) = resolveCurrent sf s := by
  simp [resolveCurrent]

theorem calc_resolved_eq (K : mdp_consts) (edidX edidY : Nat) (sf : sf_read)
    (s : internal_mirror_settings) (src dst : fb_var_screeninfo) :
    calculateBlitDetails K edidX edidY sf (resolveCurrent sf s) src dst
      = calculateBlitDetails K edidX edidY sf s src dst := by
  unfold calculateBlitDetails
  simp only [resolveCurrent_idem]

/-- C16: with scaling = Center, `calculateBlitDetails` run a second time on the
state the first run left, with the same source, destination, EDID size and
orientation reading, returns the same descriptor in every field and leaves the
same cached state (`currentRotation`, `currentOverscanX`, `currentOverscanY` and
all other settings). -/
theorem center_recompute_same (K : mdp_consts) (edidX edidY : Nat) (sf : sf_read)
    (s : internal_mirror_settings) (src dst : fb_var_screeninfo)
    (hs : s.scaling = SCALING_CENTER) :
    ∃ req, calculateBlitDetails K edidX edidY sf s src dst
        = some (true, resolveCurrent sf s, req) ∧
      calculateBlitDetails K edidX edidY sf (resolveCurrent sf s) src dst
        = some (true, resolveCurrent sf s, req) := by
  refine ⟨_, calc_center K edidX edidY sf s src dst hs, ?_⟩
  rw [calc_resolved_eq, calc_center K edidX edidY sf s src dst hs]

theorem center_recompute_same_witness :
    ∃ req, calculateBlitDetails mdp_consts_sample 16 9 sf_sample settings_center_rot_sample
          src_sample dst_sample
        = some (true, resolveCurrent sf_sample settings_center_rot_sample, req) ∧
      calculateBlitDetails mdp_consts_sample 16 9 sf_sample
          (resolveCurrent sf_sample settings_center_rot_sample) src_sample dst_sample
        = some (true, resolveCurrent sf_sample settings_center_rot_sample, req) :=
  center_recompute_same mdp_consts_sample 16 9 sf_sample settings_center_rot_sample
    src_sample dst_sample rfl

/-- C17: with scaling = Center the extents of the final destination rectangle are
those of the source rectangle, for every source and destination resolution:
width to width and height to height when the resolved rotation is 0 or 180
degrees, and transposed (destination width = source height, destination height =
source width) when it is 90 or 270 degrees. -/
theorem center_pixel_for_pixel (K : mdp_consts) (edidX edidY : Nat) (sf : sf_read)
    (s : internal_mirror_settings) (src dst : fb_var_screeninfo)
    (hs : s.scaling = SCALING_CENTER) :
    ∃ req, calculateBlitDetails K edidX edidY sf s src dst
        = some (true, resolveCurrent sf s, req) ∧
      ((resolveCurrent sf s).currentRotation = ROTATE_0 ∨
          (resolveCurrent sf s).currentRotation = ROTATE_180 →
        req.dst_rect.w = req.src_rect.w ∧ req.dst_rect.h = req.src_rect.h) ∧
      ((resolveCurrent sf s).currentRotation = ROTATE_90 ∨
          (resolveCurrent sf s).currentRotation = ROTATE_270 →
        req.dst_rect.w = req.src_rect.h ∧ req.dst_rect.h = req.src_rect.w) := by
  refine ⟨_, calc_center K edidX edidY sf s src dst hs, ?_, ?_⟩
  · intro hr
    have hf : (rotationSwitch K (resolveCurrent sf s) dst).flipDst = false := by
      rcases hr with h | h <;>
        simp [rotationSwitch, h, ROTATE_0, ROTATE_90, ROTATE_180, ROTATE_270]
    dsimp only
    rw [hf]
    simp only [transferBack, center_dst_rect, center_src_rect, whole_src_rect,
      Bool.false_eq_true, if_false]
    exact ⟨trivial, trivial⟩
  · intro hr
    have hf : (rotationSwitch K (resolveCurrent sf s) dst).flipDst = true := by
      rcases hr with h | h <;>
        simp [rotationSwitch, h, ROTATE_0, ROTATE_90, ROTATE_180, ROTATE_270]
    dsimp only
    rw [hf]
    simp only [transferBack, center_dst_rect, center_src_rect, whole_src_rect, if_true]
    exact ⟨trivial, trivial⟩

theorem center_pixel_for_pixel_witness :
    ∃ req, calculateBlitDetails mdp_consts_sample 16 9 sf_sample settings_center_rot_sample
          src_sample dst_sample
        = some (true, resolveCurrent sf_sample settings_center_rot_sample, req) ∧
      req.src_rect = { x := 600, y := 0, w := 720, h := 1080 } ∧
      req.dst_rect = { x := 100, y := 0, w := 1080, h := 720 } ∧
      req.dst_rect.w = req.src_rect.h ∧ req.dst_rect.h = req.src_rect.w := by
  obtain ⟨req, h, -, h90⟩ :=
    center_pixel_for_pixel mdp_consts_sample 16 9 sf_sample settings_center_rot_sample
      src_sample dst_sample rfl
  obtain ⟨hw, hh⟩ := h90 (Or.inl rfl)
  have h' := h
  rw [calc_center _ _ _ _ _ _ _ rfl] at h'
  refine ⟨req, h, ?_, ?_, hw, hh⟩
  · cases h'; rfl
  · cases h'; rfl

/-! ## The cached transform state (C18) -/

theorem calc_none_iff (K : mdp_consts) (edidX edidY : Nat) (sf : sf_read)
    (s : internal_mirror_settings) (src dst : fb_var_screeninfo) :
    calculateBlitDetails K edidX edidY sf s src dst = none ↔
      (s.scaling = SCALING_FIT_TO_SCREEN ∧
        fit_rect (phys_at_switch K edidX edidY sf s src dst)
          (rot_at_switch K sf s dst).dstWidth (rot_at_switch K sf s dst).dstHeight = none) := by
  by_cases h2 : s.scaling = SCALING_STRETCH
  · rw [calc_stretch _ _ _ _ _ _ _ h2]
    simp [h2, SCALING_STRETCH, SCALING_FIT_TO_SCREEN]
  · by_cases h1 : s.scaling = SCALING_CENTER
    · rw [calc_center _ _ _ _ _ _ _ h1]
      simp [h1, SCALING_CENTER, SCALING_FIT_TO_SCREEN]
    · by_cases h0 : s.scaling = SCALING_FIT_TO_SCREEN
      · rw [calc_fit _ _ _ _ _ _ _ h0]
        simp [h0, phys_at_switch, rot_at_switch]
      · rw [calc_invalid _ _ _ _ _ _ _ h0 h1 h2]
        simp [h0]

/-- C18: whenever `calculateBlitDetails` returns, with success or failure, the
settings it leaves have `currentRotation` equal to `getOrientation` when the
rotation mode is Auto and to the configured rotation otherwise,
`currentOverscanX/Y` equal to 0 when scaling is Center and to the configured
overscan otherwise, and every configured field as it was. It returns on every
input except when fit-to-screen meets a zero divisor. -/
theorem cached_state_resolved (K : mdp_consts) (edidX edidY : Nat) (sf : sf_read)
    (s : internal_mirror_settings) (src dst : fb_var_screeninfo) :
    (∀ b s1 req, calculateBlitDetails K edidX edidY sf s src dst = some (b, s1, req) →
      s1.currentRotation = (if s.rotation = ROTATE_AUTO then getOrientation sf else s.rotation) ∧
      s1.currentOverscanX = (if s.scaling = SCALING_CENTER then 0 else s.overscanX) ∧
      s1.currentOverscanY = (if s.scaling = SCALING_CENTER then 0 else s.overscanY) ∧
      s1.rotation = s.rotation ∧ s1.scaling = s.scaling ∧
      s1.overscanX = s.overscanX ∧ s1.overscanY = s.overscanY ∧
      s1.audioOverHdmi = s.audioOverHdmi ∧ s1.mirroringState = s.mirroringState) ∧
    (calculateBlitDetails K edidX edidY sf s src dst = none ↔
      (s.scaling = SCALING_FIT_TO_SCREEN ∧
        fit_rect (phys_at_switch K edidX edidY sf s src dst)
          (rot_at_switch K sf s dst).dstWidth (rot_at_switch K sf s dst).dstHeight = none)) := by
  refine ⟨?_, calc_none_iff K edidX edidY sf s src dst⟩
  intro b s1 req h
  obtain ⟨h1, -, -⟩ := calc_some_inv _ _ _ _ _ _ _ _ _ _ h
  subst h1
  exact ⟨rfl, rfl, rfl, rfl, rfl, rfl, rfl, rfl, rfl⟩

theorem cached_state_resolved_witness :
    ∃ b s1 req, calculateBlitDetails mdp_consts_sample 16 9 { ret := 160, orientation := 3 }
          settings_init src_sample dst_sample = some (b, s1, req) ∧
      s1.currentRotation = ROTATE_270 ∧ s1.currentOverscanX = 60 ∧ s1.currentOverscanY = 60 ∧
      s1.rotation = ROTATE_AUTO := by
  have hne : calculateBlitDetails mdp_consts_sample 16 9 { ret := 160, orientation := 3 }
      settings_init src_sample dst_sample ≠ none := fun hnone =>
    absurd ((cached_state_resolved mdp_consts_sample 16 9 { ret := 160, orientation := 3 }
      settings_init src_sample dst_sample).2.mp hnone) (by decide)
  cases hc : calculateBlitDetails mdp_consts_sample 16 9 { ret := 160, orientation := 3 }
      settings_init src_sample dst_sample with
  | none => exact absurd hc hne
  | some r =>
    obtain ⟨b, s1, req⟩ := r
    obtain ⟨h1, h2, h3, h4, -⟩ :=
      (cached_state_resolved mdp_consts_sample 16 9 { ret := 160, orientation := 3 }
        settings_init src_sample dst_sample).1 b s1 req hc
    exact ⟨b, s1, req, rfl, h1.trans (by decide), h2.trans (by decide), h3.trans (by decide),
      h4.trans (by decide)⟩

/-! ## No zero divisor with non-zero resolutions (C19) -/

theorem fit_rect_some (p : PhysSize) (W H : Nat)
    (hsx : p.srcSizeX ≠ 0) (hsy : p.srcSizeY ≠ 0) (hdx : p.dstSizeX ≠ 0) (hdy : p.dstSizeY ≠ 0) :
    ∃ R, fit_rect p W H = some R := by
  simp only [fit_rect, udiv_of_ne _ _ hsy, udiv_of_ne _ _ hsx, udiv_of_ne _ _ hdx,
    udiv_of_ne _ _ hdy, Option.bind_eq_bind, Option.some_bind]
  split_ifs
  · exact ⟨_, rfl⟩
  · exact ⟨_, rfl⟩

theorem umul_lt (a b : Nat) : umul a b < 4294967296 := by
  unfold umul; omega

theorem physSize_ne_zero (edidX edidY : Nat) (src dst : fb_var_screeninfo)
    (hsx : src.xres ≠ 0) (hsy : src.yres ≠ 0) (hdx : dst.xres ≠ 0) (hdy : dst.yres ≠ 0) :
    (physSize edidX edidY src dst).srcSizeX ≠ 0 ∧ (physSize edidX edidY src dst).srcSizeY ≠ 0 ∧
    (physSize edidX edidY src dst).dstSizeX ≠ 0 ∧ (physSize edidX edidY src dst).dstSizeY ≠ 0 := by
  unfold physSize
  dsimp only
  refine ⟨?_, ?_, ?_, ?_⟩ <;> split_ifs with h <;> simp_all

theorem physSize_dst_lt (edidX edidY : Nat) (src dst : fb_var_screeninfo) (hdst : res32 dst) :
    (physSize edidX edidY src dst).dstSizeX < 4294967296 ∧
    (physSize edidX edidY src dst).dstSizeY < 4294967296 := by
  obtain ⟨hx, hy⟩ := hdst
  unfold physSize
  dsimp only
  constructor <;> split_ifs <;> first | assumption | exact umul_lt _ _

/-- C19: with scaling = FitToScreen and non-zero source and destination pixel
resolutions, for every EDID size, every source physical size and every rotation,
the four physical sizes are non-zero when the scaling switch divides by them, so
`calculateBlitDetails` meets no zero divisor and succeeds; a side with a zero
physical dimension has both its dimensions replaced by its pixel resolution. -/
theorem fit_no_zero_divisor (K : mdp_consts) (edidX edidY : Nat) (sf : sf_read)
    (s : internal_mirror_settings) (src dst : fb_var_screeninfo)
    (hs : s.scaling = SCALING_FIT_TO_SCREEN)
    (hsx : src.xres ≠ 0) (hsy : src.yres ≠ 0) (hdx : dst.xres ≠ 0) (hdy : dst.yres ≠ 0)
    (hdst : res32 dst) :
    (phys_at_switch K edidX edidY sf s src dst).srcSizeX ≠ 0 ∧
    (phys_at_switch K edidX edidY sf s src dst).srcSizeY ≠ 0 ∧
    (phys_at_switch K edidX edidY sf s src dst).dstSizeX ≠ 0 ∧
    (phys_at_switch K edidX edidY sf s src dst).dstSizeY ≠ 0 ∧
    (src.width = 0 ∨ src.height = 0 →
      (physSize edidX edidY src dst).srcSizeX = src.xres ∧
      (physSize edidX edidY src dst).srcSizeY = src.yres) ∧
    (umul edidX 10 = 0 ∨ umul edidY 10 = 0 →
      (physSize edidX edidY src dst).dstSizeX = dst.xres ∧
      (physSize edidX edidY src dst).dstSizeY = dst.yres) ∧
    ∃ req, calculateBlitDetails K edidX edidY sf s src dst
      = some (true, resolveCurrent sf s, req) := by
  obtain ⟨p1, p2, p3, p4⟩ := physSize_ne_zero edidX edidY src dst hsx hsy hdx hdy
  obtain ⟨q3, q4⟩ := physSize_dst_lt edidX edidY src dst hdst
  have hp : (phys_at_switch K edidX edidY sf s src dst).srcSizeX ≠ 0 ∧
      (phys_at_switch K edidX edidY sf s src dst).srcSizeY ≠ 0 ∧
      (phys_at_switch K edidX edidY sf s src dst).dstSizeX ≠ 0 ∧
      (phys_at_switch K edidX edidY sf s src dst).dstSizeY ≠ 0 := by
    unfold phys_at_switch flipPhys
    split_ifs
    · dsimp only
      rw [toU32_toI32, Nat.mod_eq_of_lt q3]
      exact ⟨p1, p2, p4, p3⟩
    · exact ⟨p1, p2, p3, p4⟩
  obtain ⟨h1, h2, h3, h4⟩ := hp
  refine ⟨h1, h2, h3, h4, ?_, ?_, ?_⟩
  · intro h
    unfold physSize
    simp [h]
  · intro h
    unfold physSize
    simp [h]
  · obtain ⟨R, hR⟩ := fit_rect_some _ (rot_at_switch K sf s dst).dstWidth
      (rot_at_switch K sf s dst).dstHeight h1 h2 h3 h4
    rw [calc_fit K edidX edidY sf s src dst hs]
    unfold phys_at_switch rot_at_switch at hR
    rw [hR]
    exact ⟨_, rfl⟩

theorem fit_no_zero_divisor_witness :
    (physSize 0 9 src_nosize_sample dst_sample).srcSizeX = 1920 ∧
    (physSize 0 9 src_nosize_sample dst_sample).srcSizeY = 1080 ∧
    (physSize 0 9 src_nosize_sample dst_sample).dstSizeX = 1280 ∧
    (physSize 0 9 src_nosize_sample dst_sample).dstSizeY = 720 ∧
    ∃ req, calculateBlitDetails mdp_consts_sample 0 9 sf_sample settings_fit_rot_sample
        src_nosize_sample dst_sample
      = some (true, resolveCurrent sf_sample settings_fit_rot_sample, req) := by
  obtain ⟨-, -, -, -, hsrc, hdst, hreq⟩ :=
    fit_no_zero_divisor mdp_consts_sample 0 9 sf_sample settings_fit_rot_sample
      src_nosize_sample dst_sample rfl (by decide) (by decide) (by decide) (by decide)
      (by decide)
  exact ⟨(hsrc (by decide)).1, (hsrc (by decide)).2, (hdst (by decide)).1,
    (hdst (by decide)).2, hreq⟩

/-! ## Rotation as a transpose (C20) -/

theorem overscan_swapped (sf sf0 : sf_read) (s s0 : internal_mirror_settings)
    (hsc : s0.scaling = s.scaling) (hox : s0.overscanX = s.overscanY)
    (hoy : s0.overscanY = s.overscanX) :
    (resolveCurrent sf0 s0).currentOverscanX = (resolveCurrent sf s).currentOverscanY ∧
    (resolveCurrent sf0 s0).currentOverscanY = (resolveCurrent sf s).currentOverscanX := by
  simp [resolveCurrent, hsc, hox, hoy]

theorem rot_flipped (K : mdp_consts) (s : internal_mirror_settings) (dst : fb_var_screeninfo)
    (hr : s.currentRotation = ROTATE_90 ∨ s.currentRotation = ROTATE_270) :
    (rotationSwitch K s dst).dstWidth = usubI dst.yres s.currentOverscanY ∧
    (rotationSwitch K s dst).dstHeight = usubI dst.xres s.currentOverscanX ∧
    (rotationSwitch K s dst).flipDst = true := by
  rcases hr with h | h <;>
    simp [rotationSwitch, h, ROTATE_90, ROTATE_180, ROTATE_270]

theorem rot_straight (K : mdp_consts) (s : internal_mirror_settings) (dst : fb_var_screeninfo)
    (hr : s.currentRotation = ROTATE_0 ∨ s.currentRotation = ROTATE_180) :
    (rotationSwitch K s dst).dstWidth = usubI dst.xres s.currentOverscanX ∧
    (rotationSwitch K s dst).dstHeight = usubI dst.yres s.currentOverscanY ∧
    (rotationSwitch K s dst).flipDst = false := by
  rcases hr with h | h <;>
    simp [rotationSwitch, h, ROTATE_0, ROTATE_90, ROTATE_180, ROTATE_270]

theorem physSize_swapped (edidX edidY : Nat) (src dst : fb_var_screeninfo) (hdst : res32 dst) :
    flipPhys true (physSize edidX edidY src dst)
      = flipPhys false (physSize edidY edidX src (swap_dst dst)) := by
  obtain ⟨q3, -⟩ := physSize_dst_lt edidX edidY src dst hdst
  simp only [flipPhys, if_true, Bool.false_eq_true, if_false, toU32_toI32, Nat.mod_eq_of_lt q3]
  simp only [physSize, swap_dst, or_comm]

theorem transferBack_transposed (R : mdp_rect) (s s0 : internal_mirror_settings)
    (hx : s0.currentOverscanX = s.currentOverscanY)
    (hy : s0.currentOverscanY = s.currentOverscanX) :
    transpose_rect (transferBack false R s0) = transferBack true R s := by
  simp [transpose_rect, transferBack, hx, hy]

theorem overscan_same (sf sf1 : sf_read) (s s1 : internal_mirror_settings)
    (hsc : s1.scaling = s.scaling) (hox : s1.overscanX = s.overscanX)
    (hoy : s1.overscanY = s.overscanY) :
    (resolveCurrent sf1 s1).currentOverscanX = (resolveCurrent sf s).currentOverscanX ∧
    (resolveCurrent sf1 s1).currentOverscanY = (resolveCurrent sf s).currentOverscanY := by
  simp [resolveCurrent, hsc, hox, hoy]

theorem transferBack_congr (f : Bool) (R : mdp_rect) (s s1 : internal_mirror_settings)
    (hx : s1.currentOverscanX = s.currentOverscanX)
    (hy : s1.currentOverscanY = s.currentOverscanY) :
    transferBack f R s1 = transferBack f R s := by
  simp [transferBack, hx, hy]

theorem rot90_transposed_rot0 (K : mdp_consts) (edidX edidY : Nat) (sf sf0 : sf_read)
    (s s0 : internal_mirror_settings) (src dst : fb_var_screeninfo) (hdst : res32 dst)
    (hsc : s0.scaling = s.scaling) (hox : s0.overscanX = s.overscanY)
    (hoy : s0.overscanY = s.overscanX)
    (hr : (resolveCurrent sf s).currentRotation = ROTATE_90 ∨
      (resolveCurrent sf s).currentRotation = ROTATE_270)
    (hr0 : (resolveCurrent sf0 s0).currentRotation = ROTATE_0) :
    (calculateBlitDetails K edidX edidY sf s src dst).map
        (fun r => (r.1, r.2.2.src_rect, r.2.2.dst_rect))
      = (calculateBlitDetails K edidY edidX sf0 s0 src (swap_dst dst)).map
        (fun r => (r.1, r.2.2.src_rect, transpose_rect r.2.2.dst_rect)) := by
  obtain ⟨hcx, hcy⟩ := overscan_swapped sf sf0 s s0 hsc hox hoy
  obtain ⟨hW, hH, hF⟩ := rot_flipped K (resolveCurrent sf s) dst hr
  obtain ⟨hW0, hH0, hF0⟩ := rot_straight K (resolveCurrent sf0 s0) (swap_dst dst) (Or.inl hr0)
  have hWW : (rotationSwitch K (resolveCurrent sf0 s0) (swap_dst dst)).dstWidth
      = (rotationSwitch K (resolveCurrent sf s) dst).dstWidth := by
    rw [hW, hW0, hcx]; rfl
  have hHH : (rotationSwitch K (resolveCurrent sf0 s0) (swap_dst dst)).dstHeight
      = (rotationSwitch K (resolveCurrent sf s) dst).dstHeight := by
    rw [hH, hH0, hcy]; rfl
  by_cases h2 : s.scaling = SCALING_STRETCH
  · rw [calc_stretch _ _ _ _ _ _ _ h2, calc_stretch _ _ _ _ _ _ _ (hsc.trans h2)]
    simp [req_entry, req_preinit, stretch_rect, transferBack, transpose_rect, swap_dst,
      hcx, hcy]
  · by_cases h1 : s.scaling = SCALING_CENTER
    · rw [calc_center _ _ _ _ _ _ _ h1, calc_center _ _ _ _ _ _ _ (hsc.trans h1)]
      simp only [Option.map_some', hWW, hHH, hF, hF0,
        transferBack_transposed _ _ _ hcx hcy]
    · by_cases h0 : s.scaling = SCALING_FIT_TO_SCREEN
      · rw [calc_fit _ _ _ _ _ _ _ h0, calc_fit _ _ _ _ _ _ _ (hsc.trans h0)]
        simp only [hWW, hHH, hF, hF0, physSize_swapped edidX edidY src dst hdst,
          Option.map_map]
        congr 1
        funext R
        simp only [Function.comp, transferBack_transposed _ _ _ hcx hcy]
        rfl
      · rw [calc_invalid _ _ _ _ _ _ _ h0 h1 h2,
          calc_invalid _ _ _ _ _ _ _ (by rw [hsc]; exact h0) (by rw [hsc]; exact h1)
            (by rw [hsc]; exact h2)]
        simp [req_entry, req_preinit, mdp_blit_req_zero, mdp_rect_zero, transpose_rect]

theorem same_axes_same_request (K : mdp_consts) (edidX edidY : Nat) (sf sf1 : sf_read)
    (s s1 : internal_mirror_settings) (src dst : fb_var_screeninfo)
    (hsc : s1.scaling = s.scaling) (hox : s1.overscanX = s.overscanX)
    (hoy : s1.overscanY = s.overscanY)
    (hr : ((resolveCurrent sf s).currentRotation = ROTATE_0 ∧
        (resolveCurrent sf1 s1).currentRotation = ROTATE_180) ∨
      ((resolveCurrent sf s).currentRotation = ROTATE_90 ∧
        (resolveCurrent sf1 s1).currentRotation = ROTATE_270)) :
    (calculateBlitDetails K edidX edidY sf1 s1 src dst).map
        (fun r => (r.1, without_flags r.2.2))
      = (calculateBlitDetails K edidX edidY sf s src dst).map
        (fun r => (r.1, without_flags r.2.2)) := by
  obtain ⟨hcx, hcy⟩ := overscan_same sf sf1 s s1 hsc hox hoy
  have hrot : (rotationSwitch K (resolveCurrent sf1 s1) dst).dstWidth
        = (rotationSwitch K (resolveCurrent sf s) dst).dstWidth ∧
      (rotationSwitch K (resolveCurrent sf1 s1) dst).dstHeight
        = (rotationSwitch K (resolveCurrent sf s) dst).dstHeight ∧
      (rotationSwitch K (resolveCurrent sf1 s1) dst).flipDst
        = (rotationSwitch K (resolveCurrent sf s) dst).flipDst := by
    rcases hr with ⟨ha, hb⟩ | ⟨ha, hb⟩
    · obtain ⟨a1, a2, a3⟩ := rot_straight K (resolveCurrent sf s) dst (Or.inl ha)
      obtain ⟨b1, b2, b3⟩ := rot_straight K (resolveCurrent sf1 s1) dst (Or.inr hb)
      rw [a1, a2, a3, b1, b2, b3, hcx, hcy]
      exact ⟨rfl, rfl, rfl⟩
    · obtain ⟨a1, a2, a3⟩ := rot_flipped K (resolveCurrent sf s) dst (Or.inl ha)
      obtain ⟨b1, b2, b3⟩ := rot_flipped K (resolveCurrent sf1 s1) dst (Or.inr hb)
      rw [a1, a2, a3, b1, b2, b3, hcx, hcy]
      exact ⟨rfl, rfl, rfl⟩
  obtain ⟨hWW, hHH, hFF⟩ := hrot
  by_cases h2 : s.scaling = SCALING_STRETCH
  · rw [calc_stretch _ _ _ _ _ _ _ h2, calc_stretch _ _ _ _ _ _ _ (hsc.trans h2)]
    simp [req_entry, req_preinit, stretch_rect, transferBack, without_flags, hcx, hcy]
  · by_cases h1 : s.scaling = SCALING_CENTER
    · rw [calc_center _ _ _ _ _ _ _ h1, calc_center _ _ _ _ _ _ _ (hsc.trans h1)]
      simp only [Option.map_some', hWW, hHH, hFF, transferBack_congr _ _ _ _ hcx hcy,
        without_flags, req_entry]
    · by_cases h0 : s.scaling = SCALING_FIT_TO_SCREEN
      · rw [calc_fit _ _ _ _ _ _ _ h0, calc_fit _ _ _ _ _ _ _ (hsc.trans h0)]
        simp only [hWW, hHH, hFF, Option.map_map]
        congr 1
        funext R
        simp only [Function.comp, transferBack_congr _ _ _ _ hcx hcy, without_flags,
          req_entry]
      · rw [calc_invalid _ _ _ _ _ _ _ h0 h1 h2,
          calc_invalid _ _ _ _ _ _ _ (by rw [hsc]; exact h0) (by rw [hsc]; exact h1)
            (by rw [hsc]; exact h2)]
        simp [req_entry, without_flags]

theorem calc_some_flags (K : mdp_consts) (edidX edidY : Nat) (sf : sf_read)
    (s : internal_mirror_settings) (src dst : fb_var_screeninfo) (b : Bool)
    (s1 : internal_mirror_settings) (req1 : mdp_blit_req)
    (h : calculateBlitDetails K edidX edidY sf s src dst = some (b, s1, req1)) :
    req1.flags = (rotationSwitch K (resolveCurrent sf s) dst).flags := by
  unfold calculateBlitDetails at h
  dsimp only at h
  split_ifs at h
  · cases h; rfl
  · cases h; rfl
  · rw [Option.map_eq_some'] at h
    obtain ⟨R, -, hR⟩ := h
    cases hR; rfl
  · cases h; rfl

theorem rot_flags (K : mdp_consts) (s : internal_mirror_settings) (dst : fb_var_screeninfo) :
    (rotationSwitch K s dst).flags =
      if s.currentRotation = ROTATE_90 then K.MDP_ROT_270
      else if s.currentRotation = ROTATE_180 then K.MDP_ROT_180
      else if s.currentRotation = ROTATE_270 then K.MDP_ROT_90
      else K.MDP_ROT_NOP := by
  unfold rotationSwitch
  split_ifs <;> rfl

/-- C20: rotation is a transpose of the geometry problem. For every scaling
value, what `calculateBlitDetails` returns for a resolved rotation of 90 or 270
degrees on a destination of pixel size (W, H), EDID size (PX, PY) and overscan
(ox, oy) has the returned flag and source rectangle, and the transposed
destination rectangle, of what it returns for rotation 0 on the destination
(H, W) with EDID size (PY, PX) and overscan (oy, ox). On one destination,
rotation 180 returns the same request as rotation 0, and 270 the same as 90, once
the rotation flag is set aside; the flag is MDP_ROT_NOP, MDP_ROT_270, MDP_ROT_180
and MDP_ROT_90 for 0, 90, 180 and 270 degrees. -/
theorem rotation_is_transpose (K : mdp_consts) (edidX edidY : Nat)
    (src dst : fb_var_screeninfo) (hdst : res32 dst) :
    (∀ (sf sf0 : sf_read) (s s0 : internal_mirror_settings),
      s0.scaling = s.scaling → s0.overscanX = s.overscanY → s0.overscanY = s.overscanX →
      ((resolveCurrent sf s).currentRotation = ROTATE_90 ∨
        (resolveCurrent sf s).currentRotation = ROTATE_270) →
      (resolveCurrent sf0 s0).currentRotation = ROTATE_0 →
      (calculateBlitDetails K edidX edidY sf s src dst).map
          (fun r => (r.1, r.2.2.src_rect, r.2.2.dst_rect))
        = (calculateBlitDetails K edidY edidX sf0 s0 src (swap_dst dst)).map
          (fun r => (r.1, r.2.2.src_rect, transpose_rect r.2.2.dst_rect))) ∧
    (∀ (sf sf1 : sf_read) (s s1 : internal_mirror_settings),
      s1.scaling = s.scaling → s1.overscanX = s.overscanX → s1.overscanY = s.overscanY →
      (((resolveCurrent sf s).currentRotation = ROTATE_0 ∧
          (resolveCurrent sf1 s1).currentRotation = ROTATE_180) ∨
        ((resolveCurrent sf s).currentRotation = ROTATE_90 ∧
          (resolveCurrent sf1 s1).currentRotation = ROTATE_270)) →
      (calculateBlitDetails K edidX edidY sf1 s1 src dst).map
          (fun r => (r.1, without_flags r.2.2))
        = (calculateBlitDetails K edidX edidY sf s src dst).map
          (fun r => (r.1, without_flags r.2.2))) ∧
    (∀ (sf : sf_read) (s : internal_mirror_settings) (b : Bool)
        (s1 : internal_mirror_settings) (req : mdp_blit_req),
      calculateBlitDetails K edidX edidY sf s src dst = some (b, s1, req) →
      req.flags =
        if (resolveCurrent sf s).currentRotation = ROTATE_90 then K.MDP_ROT_270
        else if (resolveCurrent sf s).currentRotation = ROTATE_180 then K.MDP_ROT_180
        else if (resolveCurrent sf s).currentRotation = ROTATE_270 then K.MDP_ROT_90
        else K.MDP_ROT_NOP) := by
  refine ⟨?_, ?_, ?_⟩
  · intro sf sf0 s s0 hsc hox hoy hr hr0
    exact rot90_transposed_rot0 K edidX edidY sf sf0 s s0 src dst hdst hsc hox hoy hr hr0
  · intro sf sf1 s s1 hsc hox hoy hr
    exact same_axes_same_request K edidX edidY sf sf1 s s1 src dst hsc hox hoy hr
  · intro sf s b s1 req h
    rw [calc_some_flags _ _ _ _ _ _ _ _ _ _ h, rot_flags]

theorem rotation_is_transpose_witness :
    (calculateBlitDetails mdp_consts_sample 16 9 sf_sample settings_fit_rot90_sample
        src_sample dst_sample).map (fun r => (r.1, r.2.2.src_rect, r.2.2.dst_rect))
      = some (true, { x := 0, y := 0, w := 1920, h := 1080 },
          { x := 446, y := 15, w := 388, h := 690 }) ∧
    (calculateBlitDetails mdp_consts_sample 9 16 sf_sample settings_fit_swapped_sample
        src_sample (swap_dst dst_sample)).map
        (fun r => (r.1, r.2.2.src_rect, transpose_rect r.2.2.dst_rect))
      = some (true, { x := 0, y := 0, w := 1920, h := 1080 },
          { x := 446, y := 15, w := 388, h := 690 }) := by
  have h := (rotation_is_transpose mdp_consts_sample 16 9 src_sample dst_sample
    (by decide)).1 sf_sample sf_sample settings_fit_rot90_sample settings_fit_swapped_sample
    rfl rfl rfl (Or.inl rfl) rfl
  have h0 : (calculateBlitDetails mdp_consts_sample 9 16 sf_sample
      settings_fit_swapped_sample src_sample (swap_dst dst_sample)).map
        (fun r => (r.1, r.2.2.src_rect, transpose_rect r.2.2.dst_rect))
      = some (true, { x := 0, y := 0, w := 1920, h := 1080 },
          { x := 446, y := 15, w := 388, h := 690 }) := by
    decide
  exact ⟨h.trans h0, h0⟩

end Mirroring
